import Mathlib

/-!
Verification of the natural-language specification of the
`solana-sandwich-attack` repository against a shallow Lean embedding of its
Rust source (`src/monitoring.rs`, `src/pool_parser.rs`, `src/types.rs`,
`src/pool_addresses.rs`).

Modelling conventions:
* Rust `f64` amounts and prices are modelled as exact rationals (`ℚ`);
  division by zero in `ℚ` is Lean's junk value `0`, while Rust produces
  `inf`/`NaN` — theorems that touch such states only assert the
  `Ok`-versus-`Err` outcome, which agrees between the two.
* Rust `u64` values are `ℕ`; the `as u64` saturating cast from `f64` is
  `f64ToU64` below.
* `AHashMap` caches are modelled as association lists with overwrite
  insertion; `HashSet` accumulation is modelled as first-occurrence
  insertion order (iteration order of the hash containers is unspecified
  in Rust, and no theorem below depends on more than this).
* Fallible Rust functions returning `anyhow::Result` become
  `Except String`.
-/

namespace SandwichSpec

/-- Mint address of wrapped SOL (`src/types.rs`, `WSOL_MINT`). -/
def WSOL_MINT : String := "So11111111111111111111111111111111111111112"

/-- Mint address of USDC (`src/types.rs`, `USDC_MINT`). -/
def USDC_MINT : String := "EPjFWdd5AufqSSqeM2qN1xzybapC8G4wEGGkZwyTDt1v"

/-- Mint address of USDT (`src/types.rs`, `USDT_MINT`). -/
def USDT_MINT : String := "Es9vMFrzaCERmJfrF4H2FYD4KCoNkY11McCe8BenwNYB"

/-- The pre-compiled set of system tokens (`src/monitoring.rs`, `SYSTEM_TOKENS`). -/
def SYSTEM_TOKENS : List String := [WSOL_MINT, USDC_MINT, USDT_MINT]

/-- `DexType` (`src/types.rs`). -/
inductive DexType
  | raydiumV4
  | orcaWhirlpool
  | meteoraDLMM
  | lifinity
  | phoenix
  | serum
  | jupiter
  | unsupported
  | unknown
deriving DecidableEq

/-- `PoolInfo` (`src/types.rs`). Pubkeys are modelled as strings (their
base58 rendering, which is how `monitoring.rs` compares them). -/
structure PoolInfo where
  dex_type : DexType
  program_id : String
  pool_id : String
  token_a_mint : String
  token_b_mint : String
  token_a_vault : String
  token_b_vault : String
  reserve_a : ℕ
  reserve_b : ℕ
  fee_bps : ℕ
  tick_spacing : Option ℤ
  tick_current : Option ℤ
  bin_step : Option ℕ
  liquidity_usd : ℚ
  token_a_liquidity : ℚ
  token_b_liquidity : ℚ
  market_cap_usd : Option ℚ
  token_price_usd : Option ℚ
  total_supply : Option ℕ
deriving DecidableEq

/-- The Rust `as u64` cast from `f64`: truncates toward zero, saturating at
`0` below and at `u64::MAX` above. -/
def f64ToU64 (q : ℚ) : ℕ :=
  min (max ⌊q⌋ 0).toNat (2 ^ 64 - 1)

/-- Reserve-side selection shared by `calculate_mcap_impact_single_pool`
(`src/monitoring.rs` lines 861-873) and `find_dominant_pool` (lines
961-973): the token-side reserve, the quote-side reserve and whether the
quote side is wrapped SOL. -/
def poolReserves (pool : PoolInfo) (tokenMint : String) : ℚ × ℚ × Bool :=
  if pool.token_a_mint = tokenMint then
    ((pool.reserve_a : ℚ), (pool.reserve_b : ℚ), decide (pool.token_b_mint = WSOL_MINT))
  else
    ((pool.reserve_b : ℚ), (pool.reserve_a : ℚ), decide (pool.token_a_mint = WSOL_MINT))

/-- The constant-product projection of `calculate_mcap_impact_single_pool`
(`src/monitoring.rs` lines 883-886): `k = reserve_token * reserve_quote`,
`reserve_token_after = reserve_token - tokens_received`,
`reserve_quote_after = k / reserve_token_after`. -/
def constantProductAfter (reserveToken reserveQuote tokensReceived : ℚ) : ℚ × ℚ :=
  let k := reserveToken * reserveQuote
  let reserveTokenAfter := reserveToken - tokensReceived
  let reserveQuoteAfter := k / reserveTokenAfter
  (reserveTokenAfter, reserveQuoteAfter)

/-- `calculate_mcap_impact_single_pool` (`src/monitoring.rs` lines 852-902).
The SOL price is a parameter (the Rust function receives it from its
caller). Returns `(mcap_before, mcap_after, mcap_impact_pct)`. -/
def calculateMcapImpactSinglePool (pool : PoolInfo) (tokenMint : String)
    (tokensReceived circulatingSupply solPrice : ℚ) : ℚ × ℚ × ℚ :=
  let r := poolReserves pool tokenMint
  let reserveToken := r.1
  let reserveQuote := r.2.1
  let isSolPair := r.2.2
  let priceBeforeInQuote := reserveQuote / reserveToken
  let priceBeforeUsd := if isSolPair then priceBeforeInQuote * solPrice else priceBeforeInQuote
  let after := constantProductAfter reserveToken reserveQuote tokensReceived
  let priceAfterInQuote := after.2 / after.1
  let priceAfterUsd := if isSolPair then priceAfterInQuote * solPrice else priceAfterInQuote
  let mcapBefore := priceBeforeUsd * circulatingSupply
  let mcapAfter := priceAfterUsd * circulatingSupply
  let mcapImpactPct := ((mcapAfter - mcapBefore) / mcapBefore) * 100
  (mcapBefore, mcapAfter, mcapImpactPct)

/-- `calculate_price_impact` (`src/pool_parser.rs` lines 473-494). -/
def calculatePriceImpact (pool : PoolInfo) (amountIn : ℕ) (isAToB : Bool) : ℚ :=
  let rs := if isAToB then (pool.reserve_a, pool.reserve_b) else (pool.reserve_b, pool.reserve_a)
  let reserveIn := rs.1
  let reserveOut := rs.2
  if reserveIn = 0 ∨ reserveOut = 0 then 0
  else
    let k := (reserveIn : ℚ) * (reserveOut : ℚ)
    let newReserveIn := (reserveIn : ℚ) + (amountIn : ℚ)
    let newReserveOut := k / newReserveIn
    let priceBefore := (reserveOut : ℚ) / (reserveIn : ℚ)
    let priceAfter := newReserveOut / newReserveIn
    |(priceAfter - priceBefore) / priceBefore| * 100

/-- Outcome of the single HTTP round-trip made by
`fetch_sol_price_from_pool` (`src/monitoring.rs` lines 362-398): the
request may fail, the body may fail to parse as JSON, the
`solana.usd` field may be missing, or a price may be obtained. -/
inductive CoinGeckoOutcome
  | requestErr
  | parseErr
  | priceMissing
  | price (p : ℚ)
deriving DecidableEq

/-- `fetch_sol_price_from_pool` (`src/monitoring.rs` lines 362-398). -/
def fetchSolPriceFromPool (o : CoinGeckoOutcome) : Except String ℚ :=
  match o with
  | .requestErr => .ok 221
  | .parseErr => .ok 221
  | .priceMissing => .ok 221
  | .price p => if p < 50 ∨ p > 500 then .ok 221 else .ok p

/-- Claim C1: for every pool with positive token-side and quote-side
reserves and every `tokens_received` with
`0 < tokens_received < reserve_token`, the constant-product projection
computes `reserve_token_after = reserve_token - tokens_received` and
`reserve_quote_after = (reserve_token * reserve_quote) / reserve_token_after`,
and `reserve_token_after * reserve_quote_after = reserve_token * reserve_quote`
(exactly, over the rationals modelling the `f64` computation). -/
theorem claim_C1 (pool : PoolInfo) (tokenMint : String) (tokensReceived : ℚ)
    (h_rt : 0 < (poolReserves pool tokenMint).1)
    (h_rq : 0 < (poolReserves pool tokenMint).2.1)
    (h_pos : 0 < tokensReceived)
    (h_lt : tokensReceived < (poolReserves pool tokenMint).1) :
    (constantProductAfter (poolReserves pool tokenMint).1 (poolReserves pool tokenMint).2.1
        tokensReceived).1 = (poolReserves pool tokenMint).1 - tokensReceived ∧
    (constantProductAfter (poolReserves pool tokenMint).1 (poolReserves pool tokenMint).2.1
        tokensReceived).2 =
      ((poolReserves pool tokenMint).1 * (poolReserves pool tokenMint).2.1) /
        ((poolReserves pool tokenMint).1 - tokensReceived) ∧
    (constantProductAfter (poolReserves pool tokenMint).1 (poolReserves pool tokenMint).2.1
        tokensReceived).1 *
      (constantProductAfter (poolReserves pool tokenMint).1 (poolReserves pool tokenMint).2.1
        tokensReceived).2 =
      (poolReserves pool tokenMint).1 * (poolReserves pool tokenMint).2.1 := by
  set rt := (poolReserves pool tokenMint).1 with hrt
  set rq := (poolReserves pool tokenMint).2.1 with hrq
  have h_after_pos : 0 < rt - tokensReceived := by linarith
  have h_after_ne : rt - tokensReceived ≠ 0 := ne_of_gt h_after_pos
  refine ⟨rfl, rfl, ?_⟩
  show (rt - tokensReceived) * (rt * rq / (rt - tokensReceived)) = rt * rq
  rw [mul_div_cancel₀ _ h_after_ne]

/-- A small concrete pool used by the witnesses below: a project token
paired with USDC, reserves 1000 and 50. -/
def examplePool : PoolInfo :=
  { dex_type := .raydiumV4, program_id := "P", pool_id := "I",
    token_a_mint := "TOK", token_b_mint := USDC_MINT,
    token_a_vault := "VA", token_b_vault := "VB",
    reserve_a := 1000, reserve_b := 50, fee_bps := 30,
    tick_spacing := none, tick_current := none, bin_step := none,
    liquidity_usd := 0, token_a_liquidity := 0, token_b_liquidity := 0,
    market_cap_usd := none, token_price_usd := none, total_supply := none }

/-- Same pool with an empty A-side reserve. -/
def examplePoolZeroA : PoolInfo :=
  { examplePool with reserve_a := 0, reserve_b := 777 }

/-- Witness for C1 at a concrete pool: token-side reserve 1000, quote-side
reserve 50, 10 tokens received. -/
theorem claim_C1_witness :
    (constantProductAfter (poolReserves examplePool "TOK").1
        (poolReserves examplePool "TOK").2.1 10).1 *
      (constantProductAfter (poolReserves examplePool "TOK").1
        (poolReserves examplePool "TOK").2.1 10).2 =
      (poolReserves examplePool "TOK").1 * (poolReserves examplePool "TOK").2.1 :=
  (claim_C1 examplePool "TOK" 10 (by decide) (by decide) (by decide) (by decide)).2.2

/-- Claim C10: the price-impact calculation is a total function and returns
exactly 0 whenever the input-side or output-side reserve is zero, for both
swap directions. -/
theorem claim_C10 (pool : PoolInfo) (amountIn : ℕ) (isAToB : Bool)
    (h : (if isAToB then pool.reserve_a else pool.reserve_b) = 0 ∨
         (if isAToB then pool.reserve_b else pool.reserve_a) = 0) :
    calculatePriceImpact pool amountIn isAToB = 0 := by
  cases isAToB <;> simp only [Bool.false_eq_true, if_true, if_false] at h ⊢ <;>
    simp [calculatePriceImpact, h]

/-- Witness for C10: a pool with an empty A-side reserve, queried in both
directions. -/
theorem claim_C10_witness :
    calculatePriceImpact examplePoolZeroA 12345 true = 0 ∧
    calculatePriceImpact examplePoolZeroA 12345 false = 0 := by
  constructor
  · exact claim_C10 examplePoolZeroA 12345 true (Or.inl rfl)
  · exact claim_C10 examplePoolZeroA 12345 false (Or.inr rfl)

/-- Claim C9: the SOL price fetch never surfaces an error: every HTTP,
parse or missing-field failure yields the fallback 221, a price below 50
or above 500 yields the fallback 221, and an in-band price is returned as
fetched. -/
theorem claim_C9 :
    (∀ o, ∃ p, fetchSolPriceFromPool o = .ok p) ∧
    fetchSolPriceFromPool .requestErr = .ok 221 ∧
    fetchSolPriceFromPool .parseErr = .ok 221 ∧
    fetchSolPriceFromPool .priceMissing = .ok 221 ∧
    (∀ p : ℚ, p < 50 → fetchSolPriceFromPool (.price p) = .ok 221) ∧
    (∀ p : ℚ, p > 500 → fetchSolPriceFromPool (.price p) = .ok 221) ∧
    (∀ p : ℚ, 50 ≤ p → p ≤ 500 → fetchSolPriceFromPool (.price p) = .ok p) := by
  refine ⟨?_, rfl, rfl, rfl, ?_, ?_, ?_⟩
  · intro o
    match o with
    | .requestErr => exact ⟨221, rfl⟩
    | .parseErr => exact ⟨221, rfl⟩
    | .priceMissing => exact ⟨221, rfl⟩
    | .price p =>
      by_cases h : p < 50 ∨ p > 500
      · exact ⟨221, by simp [fetchSolPriceFromPool, h]⟩
      · exact ⟨p, by simp [fetchSolPriceFromPool, h]⟩
  · intro p hp
    simp [fetchSolPriceFromPool, Or.inl hp]
  · intro p hp
    simp [fetchSolPriceFromPool, Or.inr hp]
  · intro p h1 h2
    have : ¬(p < 50 ∨ p > 500) := by
      push_neg
      exact ⟨h1, h2⟩
    simp [fetchSolPriceFromPool, this]

/-- Witness for C9: the in-band price 221.5 = 443/2 is returned unchanged,
and the out-of-band price 1000 falls back to 221. -/
theorem claim_C9_witness :
    fetchSolPriceFromPool (.price (443 / 2)) = .ok (443 / 2) ∧
    fetchSolPriceFromPool (.price 1000) = .ok 221 := by
  constructor
  · exact claim_C9.2.2.2.2.2.2 (443 / 2) (by norm_num) (by norm_num)
  · exact claim_C9.2.2.2.2.2.1 1000 (by norm_num)

/-- Substring test modelling Rust's `str::contains` (`log.contains(program_id)`,
`src/monitoring.rs` line 1134): some tail of the haystack starts with the
pattern. -/
def strContains (hay pat : String) : Bool :=
  hay.data.tails.any (fun t => pat.data.isPrefixOf t)

/-- One notification of the log subscription
(`Response<RpcLogsResponse>`): the transaction signature and the log
lines of the batch. -/
structure LogsNotification where
  signature : String
  logs : List String
deriving DecidableEq

/-- The fixed `DEX_PROGRAMS` list of `is_dex_transaction`
(`src/monitoring.rs` lines 1112-1130). -/
def DEX_PROGRAMS : List String :=
  [ "675kPX9MHTjS2zt1qfr1NYHuzeLXfQM9H24wFSUt1Mp8"
  , "RVKd61ztZW9GUwhRbbLoYVRE5Xf1B2tVscKqwZqXgEr"
  , "whirLbMiicVdio4qvUfM5KAg6Ct8VwpYzGff3uctyCc"
  , "9W959DqEETiGZocYWCQPaJ6sBmUzgfxXfqGeTEdp3aQP"
  , "LBUZKhRxPF3XUpBCjp4YzTKgLccjZhTSDM9YuVaPwxo"
  , "JUP6LkbZbjS1jKKwapdHNy74zcZ3tLUZoi5QNyVTaV4"
  , "JUP4Fb2cqiRUcaTHdrPC8h2gNsA2ETXiPDD33WcGuJB"
  , "9xQeWvG816bUx9EPjHmaT23yvVM2ZWbrrpZb9PusVFin" ]

/-- `is_dex_transaction` (`src/monitoring.rs` lines 1110-1136). -/
def isDexTransaction (logs : LogsNotification) : Bool :=
  logs.logs.any (fun log => DEX_PROGRAMS.any (fun programId => strContains log programId))

/-- `process_websocket_logs` (`src/monitoring.rs` lines 1072-1107): for
each incoming batch that passes `is_dex_transaction` a per-transaction
analysis task is spawned; other batches are dropped. The model returns the
batches for which a task is dispatched. -/
def processWebsocketLogs (batches : List LogsNotification) : List LogsNotification :=
  batches.filter isDexTransaction

/-- Claim C8: a log batch none of whose lines contains any known exchange
program address as a substring is classified as non-DEX and is never
dispatched for analysis. -/
theorem claim_C8 (r : LogsNotification)
    (h : ∀ line ∈ r.logs, ∀ p ∈ DEX_PROGRAMS, strContains line p = false) :
    isDexTransaction r = false ∧ ∀ batches, r ∉ processWebsocketLogs batches := by
  have hfilter : isDexTransaction r = false := by
    simp only [isDexTransaction, List.any_eq_false, Bool.not_eq_true]
    exact h
  refine ⟨hfilter, ?_⟩
  intro batches hmem
  rw [processWebsocketLogs, List.mem_filter] at hmem
  rw [hfilter] at hmem
  exact absurd hmem.2 (by simp)

/-- Witness for C8: a batch whose only log line mentions no DEX program. -/
theorem claim_C8_witness :
    isDexTransaction { signature := "sig", logs := ["Program 11111111111111111111111111111111 invoke"] } = false ∧
    ∀ batches, { signature := "sig", logs := ["Program 11111111111111111111111111111111 invoke"] } ∉
      processWebsocketLogs batches :=
  claim_C8 { signature := "sig", logs := ["Program 11111111111111111111111111111111 invoke"] }
    (by decide)

/-- Association-list lookup, modelling `AHashMap::get`. -/
def assocLookup {α : Type} : List (String × α) → String → Option α
  | [], _ => none
  | e :: rest, k => if e.1 = k then some e.2 else assocLookup rest k

/-- Association-list insertion with overwrite, modelling
`AHashMap::insert`. -/
def assocInsert {α : Type} : List (String × α) → String → α → List (String × α)
  | [], k, v => [(k, v)]
  | e :: rest, k, v => if e.1 = k then (k, v) :: rest else e :: assocInsert rest k v

theorem assocLookup_insert_self {α : Type} (m : List (String × α)) (k : String) (v : α) :
    assocLookup (assocInsert m k v) k = some v := by
  induction m with
  | nil => simp [assocInsert, assocLookup]
  | cons e rest ih =>
    by_cases h : e.1 = k
    · simp [assocInsert, assocLookup, h]
    · simp [assocInsert, assocLookup, h, ih]

theorem assocLookup_insert_ne {α : Type} (m : List (String × α)) (k k' : String) (v : α)
    (h : k' ≠ k) : assocLookup (assocInsert m k v) k' = assocLookup m k' := by
  induction m with
  | nil => simp [assocInsert, assocLookup, Ne.symm h]
  | cons e rest ih =>
    by_cases he : e.1 = k
    · simp [assocInsert, assocLookup, he, h, Ne.symm h]
    · by_cases he' : e.1 = k'
      · simp [assocInsert, assocLookup, he, he', h]
      · simp [assocInsert, assocLookup, he, he', ih]

/-- A TTL cache (price or supply): key to `(value, capture instant)`.
Instants are natural numbers (seconds); `Instant::elapsed` at time `now`
for a capture time `t` is `now - t`. -/
def TtlCache : Type := List (String × ℚ × ℕ)

/-- `calculate_token_value_via_routes` (`src/monitoring.rs` lines 240-259),
with the network-touching `find_token_price_via_routes` result supplied as
`fetchedPrice`. Returns the USD value, the updated price cache, and
whether the fetcher was invoked. -/
def calculateTokenValueViaRoutes (cache : TtlCache) (now : ℕ) (mint : String)
    (amount fetchedPrice : ℚ) : ℚ × TtlCache × Bool :=
  match assocLookup cache mint with
  | some (price, timestamp) =>
    if now - timestamp < 300 then (amount * price, cache, false)
    else (amount * fetchedPrice, assocInsert cache mint (fetchedPrice, now), true)
  | none => (amount * fetchedPrice, assocInsert cache mint (fetchedPrice, now), true)

/-- `get_circulating_supply` (`src/monitoring.rs` lines 605-627), with the
RPC `get_token_supply` result (after `ui_amount.unwrap_or(0.0)`) supplied
as `fetchedSupply`. -/
def getCirculatingSupply (cache : TtlCache) (now : ℕ) (tokenMint : String)
    (fetchedSupply : ℚ) : ℚ × TtlCache × Bool :=
  match assocLookup cache tokenMint with
  | some (supply, timestamp) =>
    if now - timestamp < 300 then (supply, cache, false)
    else (fetchedSupply, assocInsert cache tokenMint (fetchedSupply, now), true)
  | none => (fetchedSupply, assocInsert cache tokenMint (fetchedSupply, now), true)

/-- Claim C7: the token-price and token-supply caches (TTL 300 s) never
invoke the underlying fetcher on an entry younger than the TTL, and always
invoke it — storing the result with a fresh capture timestamp — when the
entry is absent or at least TTL old. -/
theorem claim_C7 :
    (∀ (cache : TtlCache) (now : ℕ) (mint : String) (amount fetchedPrice price : ℚ) (t : ℕ),
      assocLookup cache mint = some (price, t) → now - t < 300 →
        calculateTokenValueViaRoutes cache now mint amount fetchedPrice =
          (amount * price, cache, false)) ∧
    (∀ (cache : TtlCache) (now : ℕ) (mint : String) (amount fetchedPrice : ℚ),
      (assocLookup cache mint = none ∨
        ∃ price t, assocLookup cache mint = some (price, t) ∧ ¬(now - t < 300)) →
        calculateTokenValueViaRoutes cache now mint amount fetchedPrice =
          (amount * fetchedPrice, assocInsert cache mint (fetchedPrice, now), true) ∧
        assocLookup (calculateTokenValueViaRoutes cache now mint amount fetchedPrice).2.1 mint =
          some (fetchedPrice, now)) ∧
    (∀ (cache : TtlCache) (now : ℕ) (tokenMint : String) (fetchedSupply supply : ℚ) (t : ℕ),
      assocLookup cache tokenMint = some (supply, t) → now - t < 300 →
        getCirculatingSupply cache now tokenMint fetchedSupply = (supply, cache, false)) ∧
    (∀ (cache : TtlCache) (now : ℕ) (tokenMint : String) (fetchedSupply : ℚ),
      (assocLookup cache tokenMint = none ∨
        ∃ supply t, assocLookup cache tokenMint = some (supply, t) ∧ ¬(now - t < 300)) →
        getCirculatingSupply cache now tokenMint fetchedSupply =
          (fetchedSupply, assocInsert cache tokenMint (fetchedSupply, now), true) ∧
        assocLookup (getCirculatingSupply cache now tokenMint fetchedSupply).2.1 tokenMint =
          some (fetchedSupply, now)) := by
  refine ⟨?_, ?_, ?_, ?_⟩
  · intro cache now mint amount fetchedPrice price t hlook hfresh
    simp [calculateTokenValueViaRoutes, hlook, hfresh]
  · intro cache now mint amount fetchedPrice hmiss
    rcases hmiss with hnone | ⟨price, t, hsome, hstale⟩
    · refine ⟨?_, ?_⟩ <;>
        simp [calculateTokenValueViaRoutes, hnone, assocLookup_insert_self]
    · refine ⟨?_, ?_⟩ <;>
        simp [calculateTokenValueViaRoutes, hsome, hstale, assocLookup_insert_self]
  · intro cache now tokenMint fetchedSupply supply t hlook hfresh
    simp [getCirculatingSupply, hlook, hfresh]
  · intro cache now tokenMint fetchedSupply hmiss
    rcases hmiss with hnone | ⟨supply, t, hsome, hstale⟩
    · refine ⟨?_, ?_⟩ <;>
        simp [getCirculatingSupply, hnone, assocLookup_insert_self]
    · refine ⟨?_, ?_⟩ <;>
        simp [getCirculatingSupply, hsome, hstale, assocLookup_insert_self]

/-- Witness for C7: a fresh price entry is served from the cache without
fetching; an expired supply entry is re-fetched and re-stamped. -/
theorem claim_C7_witness :
    calculateTokenValueViaRoutes [("M", (3, 100))] 200 "M" 7 9 = (21, [("M", (3, 100))], false) ∧
    getCirculatingSupply [("S", (5, 0))] 400 "S" 11 =
      (11, assocInsert [("S", (5, 0))] "S" (11, 400), true) := by
  constructor
  · have h := claim_C7.1 [("M", (3, 100))] 200 "M" 7 9 3 100 (by decide) (by decide)
    norm_num at h
    exact h
  · have h := (claim_C7.2.2.2 [("S", (5, 0))] 400 "S" 11
      (Or.inr ⟨5, 0, by decide, by decide⟩)).1
    exact h

/-- Per-pool USD liquidity used by `find_dominant_pool`
(`src/monitoring.rs` lines 960-979): twice the quote-side reserve,
multiplied by the SOL price when the quote side is wrapped SOL. -/
def poolLiquidityUsd (pool : PoolInfo) (tokenMint : String) (solPrice : ℚ) : ℚ :=
  let r := poolReserves pool tokenMint
  if r.2.2 then r.2.1 * solPrice * 2 else r.2.1 * 2

/-- One iteration of the `find_dominant_pool` loop: the accumulator is
`(max_liquidity, dominant_pool, total_liquidity)`. -/
def dominantStep (tokenMint : String) (solPrice : ℚ)
    (acc : ℚ × PoolInfo × ℚ) (p : PoolInfo) : ℚ × PoolInfo × ℚ :=
  let l := poolLiquidityUsd p tokenMint solPrice
  if l > acc.1 then (l, p, acc.2.2 + l) else (acc.1, acc.2.1, acc.2.2 + l)

/-- `find_dominant_pool` (`src/monitoring.rs` lines 949-996).
`max_liquidity` starts at 0, `dominant_pool` at `pools[0]`; indexing an
empty slice panics in Rust, modelled by `none`. -/
def findDominantPool (pools : List PoolInfo) (tokenMint : String) (solPrice : ℚ) :
    Option (PoolInfo × ℚ) :=
  match pools with
  | [] => none
  | p0 :: _ =>
    let acc := pools.foldl (dominantStep tokenMint solPrice) (0, p0, 0)
    some (acc.2.1, if acc.2.2 > 0 then acc.1 / acc.2.2 else 0)

theorem poolLiquidityUsd_nonneg (pool : PoolInfo) (tokenMint : String) (solPrice : ℚ)
    (h : 0 ≤ solPrice) : 0 ≤ poolLiquidityUsd pool tokenMint solPrice := by
  unfold poolLiquidityUsd poolReserves
  split_ifs <;> simp <;> positivity

theorem dominantFold_spec (tokenMint : String) (solPrice : ℚ)
    (rest : List PoolInfo) (acc : ℚ × PoolInfo × ℚ)
    (h1 : acc.1 = poolLiquidityUsd acc.2.1 tokenMint solPrice) :
    (rest.foldl (dominantStep tokenMint solPrice) acc).1 =
      poolLiquidityUsd (rest.foldl (dominantStep tokenMint solPrice) acc).2.1 tokenMint solPrice ∧
    ((rest.foldl (dominantStep tokenMint solPrice) acc).2.1 = acc.2.1 ∨
      (rest.foldl (dominantStep tokenMint solPrice) acc).2.1 ∈ rest) ∧
    acc.1 ≤ (rest.foldl (dominantStep tokenMint solPrice) acc).1 ∧
    (∀ p ∈ rest, poolLiquidityUsd p tokenMint solPrice ≤
      (rest.foldl (dominantStep tokenMint solPrice) acc).1) ∧
    (rest.foldl (dominantStep tokenMint solPrice) acc).2.2 =
      acc.2.2 + (rest.map (fun p => poolLiquidityUsd p tokenMint solPrice)).sum := by
  induction rest generalizing acc with
  | nil => exact ⟨h1, Or.inl rfl, le_refl _, by simp, by simp⟩
  | cons p ps ih =>
    have hstep : ps.foldl (dominantStep tokenMint solPrice) (dominantStep tokenMint solPrice acc p) =
        (p :: ps).foldl (dominantStep tokenMint solPrice) acc := by
      simp [List.foldl_cons]
    by_cases hgt : poolLiquidityUsd p tokenMint solPrice > acc.1
    · have hacc : dominantStep tokenMint solPrice acc p =
          (poolLiquidityUsd p tokenMint solPrice, p, acc.2.2 + poolLiquidityUsd p tokenMint solPrice) := by
        simp [dominantStep, hgt]
      obtain ⟨g1, g2, g3, g4, g5⟩ := ih
        (poolLiquidityUsd p tokenMint solPrice, p, acc.2.2 + poolLiquidityUsd p tokenMint solPrice)
        rfl
      rw [← hstep, hacc]
      refine ⟨g1, ?_, ?_, ?_, ?_⟩
      · rcases g2 with g2 | g2
        · exact Or.inr (by rw [g2]; exact List.mem_cons_self p ps)
        · exact Or.inr (List.mem_cons_of_mem p g2)
      · exact le_trans (le_of_lt hgt) g3
      · intro q hq
        rcases List.mem_cons.mp hq with hq | hq
        · rw [hq]; exact g3
        · exact g4 q hq
      · rw [g5]; simp [add_assoc]
    · have hacc : dominantStep tokenMint solPrice acc p =
          (acc.1, acc.2.1, acc.2.2 + poolLiquidityUsd p tokenMint solPrice) := by
        simp [dominantStep, hgt]
      obtain ⟨g1, g2, g3, g4, g5⟩ := ih
        (acc.1, acc.2.1, acc.2.2 + poolLiquidityUsd p tokenMint solPrice) h1
      rw [← hstep, hacc]
      refine ⟨g1, ?_, g3, ?_, ?_⟩
      · rcases g2 with g2 | g2
        · exact Or.inl g2
        · exact Or.inr (List.mem_cons_of_mem p g2)
      · intro q hq
        rcases List.mem_cons.mp hq with hq | hq
        · rw [hq]; exact le_trans (le_of_not_lt hgt) g3
        · exact g4 q hq
      · rw [g5]; simp [add_assoc]

/-- A pool whose USD liquidity against the example project token is
1000 (USDC quote side 500, doubled). -/
def examplePoolLiq1000 : PoolInfo := { examplePool with reserve_b := 500 }

/-- A pool whose USD liquidity against the example project token is
9000 (USDC quote side 4500, doubled). -/
def examplePoolLiq9000 : PoolInfo := { examplePool with reserve_b := 4500 }

/-- Claim C4: on a non-empty candidate list (with a non-negative SOL
price), `find_dominant_pool` returns a pool of the list whose USD
liquidity is maximal, together with a dominance ratio equal to that
pool's liquidity divided by the total liquidity of all candidates; on two
candidate pools of liquidity 1000 USD and 9000 USD it selects the
9000 USD pool with dominance ratio 9/10. -/
theorem claim_C4 :
    (∀ (pools : List PoolInfo) (tokenMint : String) (solPrice : ℚ),
      0 ≤ solPrice → pools ≠ [] →
      ∃ dom ratio, findDominantPool pools tokenMint solPrice = some (dom, ratio) ∧
        dom ∈ pools ∧
        (∀ p ∈ pools, poolLiquidityUsd p tokenMint solPrice ≤
          poolLiquidityUsd dom tokenMint solPrice) ∧
        ratio = poolLiquidityUsd dom tokenMint solPrice /
          (pools.map (fun p => poolLiquidityUsd p tokenMint solPrice)).sum) ∧
    findDominantPool [examplePoolLiq1000, examplePoolLiq9000] "TOK" 200 =
      some (examplePoolLiq9000, 9 / 10) := by
  constructor
  · intro pools tokenMint solPrice hsp hne
    match pools, hne with
    | p0 :: tail, _ =>
      have hl0 : 0 ≤ poolLiquidityUsd p0 tokenMint solPrice :=
        poolLiquidityUsd_nonneg p0 tokenMint solPrice hsp
      have hfirst : dominantStep tokenMint solPrice (0, p0, 0) p0 =
          (poolLiquidityUsd p0 tokenMint solPrice, p0,
            poolLiquidityUsd p0 tokenMint solPrice) := by
        by_cases hgt : poolLiquidityUsd p0 tokenMint solPrice > 0
        · simp [dominantStep, hgt]
        · have h0 : poolLiquidityUsd p0 tokenMint solPrice = 0 :=
            le_antisymm (le_of_not_lt hgt) hl0
          simp [dominantStep, h0]
      obtain ⟨g1, g2, g3, g4, g5⟩ := dominantFold_spec tokenMint solPrice tail
        (poolLiquidityUsd p0 tokenMint solPrice, p0, poolLiquidityUsd p0 tokenMint solPrice)
        rfl
      set res := tail.foldl (dominantStep tokenMint solPrice)
        (poolLiquidityUsd p0 tokenMint solPrice, p0, poolLiquidityUsd p0 tokenMint solPrice)
        with hres
      have hfold : (p0 :: tail).foldl (dominantStep tokenMint solPrice) (0, p0, 0) = res := by
        rw [List.foldl_cons, hfirst, hres]
      have hdommem : res.2.1 ∈ p0 :: tail := by
        rcases g2 with g2 | g2
        · rw [g2]; exact List.mem_cons_self p0 tail
        · exact List.mem_cons_of_mem p0 g2
      have hmax : ∀ p ∈ p0 :: tail, poolLiquidityUsd p tokenMint solPrice ≤ res.1 := by
        intro q hq
        rcases List.mem_cons.mp hq with hq | hq
        · rw [hq]; exact g3
        · exact g4 q hq
      have htot : res.2.2 =
          ((p0 :: tail).map (fun p => poolLiquidityUsd p tokenMint solPrice)).sum := by
        rw [g5]; simp
      refine ⟨res.2.1, if res.2.2 > 0 then res.1 / res.2.2 else 0, ?_, hdommem, ?_, ?_⟩
      · show findDominantPool (p0 :: tail) tokenMint solPrice = _
        rw [findDominantPool]
        rw [hfold]
      · intro p hp
        rw [← g1]; exact hmax p hp
      · by_cases hpos : res.2.2 > 0
        · rw [if_pos hpos, g1, htot]
        · have hzero : res.2.2 = 0 := by
            have : 0 ≤ res.2.2 := by
              rw [htot]
              apply List.sum_nonneg
              intro x hx
              rcases List.mem_map.mp hx with ⟨q, _, hq⟩
              rw [← hq]
              exact poolLiquidityUsd_nonneg q tokenMint solPrice hsp
            exact le_antisymm (le_of_not_lt hpos) this
          have hsum : ((p0 :: tail).map (fun p => poolLiquidityUsd p tokenMint solPrice)).sum = 0 := by
            rw [← htot]; exact hzero
          rw [if_neg hpos, hsum, div_zero]
  · have hA : poolLiquidityUsd examplePoolLiq1000 "TOK" 200 = 1000 := by
      norm_num [poolLiquidityUsd, poolReserves, examplePoolLiq1000, examplePool,
        WSOL_MINT, USDC_MINT] <;> decide
    have hB : poolLiquidityUsd examplePoolLiq9000 "TOK" 200 = 9000 := by
      norm_num [poolLiquidityUsd, poolReserves, examplePoolLiq9000, examplePool,
        WSOL_MINT, USDC_MINT] <;> decide
    rw [findDominantPool]
    simp only [List.foldl_cons, List.foldl_nil]
    rw [dominantStep, dominantStep]
    rw [hA, hB]
    norm_num

/-- Witness for C4: the general statement applied to the two concrete
pools of liquidity 1000 and 9000 USD. -/
theorem claim_C4_witness :
    ∃ dom ratio,
      findDominantPool [examplePoolLiq1000, examplePoolLiq9000] "TOK" 200 = some (dom, ratio) ∧
      dom ∈ [examplePoolLiq1000, examplePoolLiq9000] ∧
      (∀ p ∈ [examplePoolLiq1000, examplePoolLiq9000],
        poolLiquidityUsd p "TOK" 200 ≤ poolLiquidityUsd dom "TOK" 200) ∧
      ratio = poolLiquidityUsd dom "TOK" 200 /
        ([examplePoolLiq1000, examplePoolLiq9000].map (fun p => poolLiquidityUsd p "TOK" 200)).sum :=
  claim_C4.1 [examplePoolLiq1000, examplePoolLiq9000] "TOK" 200 (by norm_num) (by simp)

/-- `UiTransactionTokenBalance`: the fields of a pre/post token-balance
record that `monitoring.rs` reads. `owner` is optional in the RPC schema;
`uiAmount` models `ui_token_amount.ui_amount`, read with
`.unwrap_or(0.0)`. -/
structure UiTokenBalance where
  mint : String
  owner : Option String
  uiAmount : Option ℚ
deriving DecidableEq

/-- `ui_token_amount.ui_amount.unwrap_or(0.0)`. -/
def amountOf (b : UiTokenBalance) : ℚ := b.uiAmount.getD 0

/-- The repeated search `balances.iter().find(|p| p.mint == *mint &&
p.owner == Some(user))` of `monitoring.rs`. -/
def findBalance (balances : List UiTokenBalance) (user mint : String) :
    Option UiTokenBalance :=
  balances.find? (fun p => decide (p.mint = mint ∧ p.owner = some user))

/-- The fields of a JSON-parsed confirmed transaction that
`get_investment_value_fast` reads: parsed account keys, native lamport
balances, and optional token-balance lists. -/
structure ParsedTransaction where
  accountKeys : List String
  preBalances : List ℕ
  postBalances : List ℕ
  preTokenBalances : Option (List UiTokenBalance)
  postTokenBalances : Option (List UiTokenBalance)

/-- `extract_user_owner_from_transaction` (`src/monitoring.rs` lines
491-517), parsed-message path: the first account key (primary signer). -/
def extractUserOwner (tx : ParsedTransaction) : Except String String :=
  match tx.accountKeys.head? with
  | some firstSigner => .ok firstSigner
  | none => .error "Aucun signataire trouve dans la transaction"

/-- `Iterator::position`: index of the first key equal to `target`. -/
def positionOf (keys : List String) (target : String) : Option ℕ :=
  match keys with
  | [] => none
  | k :: rest => if k = target then some 0 else (positionOf rest target).map (· + 1)

/-- The per-record token-side contribution of the loop in
`get_investment_value_fast` (`src/monitoring.rs` lines 188-231): a user
balance that decreased contributes `diff * sol_price` for wrapped SOL,
`diff` for USDC, nothing for USDT (a system token with no branch of its
own), and `diff * route price` for any non-system token (the always-`Ok`
route resolution is supplied as `routeUnitPrice`). -/
def tokenInvestmentContribution (post : List UiTokenBalance) (user : String)
    (solPrice : ℚ) (routeUnitPrice : String → ℚ) (b : UiTokenBalance) : ℚ :=
  if b.owner = some user then
    match findBalance post user b.mint with
    | some pb =>
      let tokenDiff := amountOf b - amountOf pb
      if 0 < tokenDiff then
        if b.mint = WSOL_MINT then tokenDiff * solPrice
        else if b.mint = USDC_MINT then tokenDiff
        else if b.mint = USDT_MINT then 0
        else tokenDiff * routeUnitPrice b.mint
      else 0
    | none => 0
  else 0

/-- The token-balance part of `get_investment_value_fast`: zero when
either token-balance list is absent. -/
def tokenInvestedUsd (tx : ParsedTransaction) (user : String) (solPrice : ℚ)
    (routeUnitPrice : String → ℚ) : ℚ :=
  match tx.preTokenBalances, tx.postTokenBalances with
  | some pre, some post =>
    (pre.map (tokenInvestmentContribution post user solPrice routeUnitPrice)).sum
  | _, _ => 0

/-- `get_investment_value_fast` (`src/monitoring.rs` lines 119-237),
JSON-parsed path, after a successful transaction fetch with metadata. The
cached SOL price is `solPriceOpt` (`get_sol_price_cached` fails when it is
`none`). -/
def getInvestmentValueFast (tx : ParsedTransaction) (solPriceOpt : Option ℚ)
    (routeUnitPrice : String → ℚ) : Except String ℚ :=
  match extractUserOwner tx with
  | .error e => .error e
  | .ok userOwner =>
    match solPriceOpt with
    | none => .error "Prix SOL non disponible - attente du cache"
    | some solPrice =>
      match positionOf tx.accountKeys userOwner with
      | none => .error "Utilisateur non trouve dans les comptes de la transaction"
      | some userIndex =>
        let solPart :=
          match tx.preBalances.get? userIndex, tx.postBalances.get? userIndex with
          | some preBalance, some postBalance =>
            let solDiff := ((preBalance : ℚ) - (postBalance : ℚ)) / 1000000000
            if 0 < solDiff then solDiff * solPrice else 0
          | _, _ => 0
        .ok (solPart + tokenInvestedUsd tx userOwner solPrice routeUnitPrice)

theorem tokenInvestmentContribution_nonneg (post : List UiTokenBalance) (user : String)
    (solPrice : ℚ) (routeUnitPrice : String → ℚ) (b : UiTokenBalance)
    (hsp : 0 ≤ solPrice) (hroute : ∀ m, 0 ≤ routeUnitPrice m) :
    0 ≤ tokenInvestmentContribution post user solPrice routeUnitPrice b := by
  unfold tokenInvestmentContribution
  split
  · split
    · dsimp only
      split_ifs with hd hw hu ht
      · exact mul_nonneg (le_of_lt hd) hsp
      · exact le_of_lt hd
      · exact le_refl (0 : ℚ)
      · exact mul_nonneg (le_of_lt hd) (hroute b.mint)
      · exact le_refl (0 : ℚ)
    · exact le_refl (0 : ℚ)
  · exact le_refl (0 : ℚ)

/-- Claim C5: for every parsed transaction whose identified user's native
balance decreases, the invested value equals
`(pre - post) / 1e9 * sol_price` plus a non-negative token-side
contribution; and with pre/post native balances of 10.0 and 9.5 SOL and a
SOL price of 200 USD, the invested value is exactly 100 USD. -/
theorem claim_C5 :
    (∀ (tx : ParsedTransaction) (solPrice : ℚ) (routeUnitPrice : String → ℚ)
        (user : String) (rest : List String) (preBalance postBalance : ℕ),
      tx.accountKeys = user :: rest →
      tx.preBalances.get? 0 = some preBalance →
      tx.postBalances.get? 0 = some postBalance →
      postBalance < preBalance →
      0 ≤ solPrice → (∀ m, 0 ≤ routeUnitPrice m) →
      ∃ tokenPart,
        getInvestmentValueFast tx (some solPrice) routeUnitPrice =
          .ok (((preBalance : ℚ) - (postBalance : ℚ)) / 1000000000 * solPrice + tokenPart) ∧
        0 ≤ tokenPart) ∧
    getInvestmentValueFast
        { accountKeys := ["USER"], preBalances := [10000000000],
          postBalances := [9500000000], preTokenBalances := none,
          postTokenBalances := none }
        (some 200) (fun _ => 0) = .ok 100 := by
  constructor
  · intro tx solPrice routeUnitPrice user rest preBalance postBalance
      hkeys hpre hpost hlt hsp hroute
    have hhead : tx.accountKeys.head? = some user := by rw [hkeys]; rfl
    have hposition : positionOf tx.accountKeys user = some 0 := by
      rw [hkeys]; simp [positionOf]
    have hdiff : (0 : ℚ) < ((preBalance : ℚ) - (postBalance : ℚ)) / 1000000000 := by
      apply div_pos
      · have : (postBalance : ℚ) < (preBalance : ℚ) := by exact_mod_cast hlt
        linarith
      · norm_num
    refine ⟨tokenInvestedUsd tx user solPrice routeUnitPrice, ?_, ?_⟩
    · rw [getInvestmentValueFast, extractUserOwner, hhead]
      simp only [hposition, hpre, hpost]
      rw [if_pos hdiff]
    · rw [tokenInvestedUsd]
      split
      · apply List.sum_nonneg
        intro x hx
        rcases List.mem_map.mp hx with ⟨b, _, hb⟩
        rw [← hb]
        exact tokenInvestmentContribution_nonneg _ _ _ _ b hsp hroute
      · exact le_refl 0
  · rw [getInvestmentValueFast, extractUserOwner]
    norm_num [positionOf, tokenInvestedUsd]

/-- Witness for C5: the general statement applied to the 10.0 to 9.5 SOL
transaction at SOL price 200. -/
theorem claim_C5_witness :
    ∃ tokenPart,
      getInvestmentValueFast
          { accountKeys := ["USER"], preBalances := [10000000000],
            postBalances := [9500000000], preTokenBalances := none,
            postTokenBalances := none }
          (some 200) (fun _ => 0) =
        .ok ((((10000000000 : ℕ) : ℚ) - ((9500000000 : ℕ) : ℚ)) / 1000000000 * 200 + tokenPart) ∧
      0 ≤ tokenPart :=
  claim_C5.1
    { accountKeys := ["USER"], preBalances := [10000000000],
      postBalances := [9500000000], preTokenBalances := none,
      postTokenBalances := none }
    200 (fun _ => 0) "USER" [] 10000000000 9500000000 rfl rfl rfl
    (by norm_num) (by norm_num) (fun _ => le_refl 0)

/-- Little-endian read of `len` bytes at `offset` (Borsh integer
encoding). -/
def readLE (data : List UInt8) (offset len : ℕ) : ℕ :=
  ((data.drop offset).take len).foldr (fun b acc => b.toNat + 256 * acc) 0

/-- A 32-byte Borsh public key at `offset`. -/
def readPubkey (data : List UInt8) (offset : ℕ) : List UInt8 :=
  (data.drop offset).take 32

/-- A Borsh `i32` (two's complement, little-endian) at `offset`. -/
def readI32 (data : List UInt8) (offset : ℕ) : ℤ :=
  let n := readLE data offset 4
  if n < 2 ^ 31 then (n : ℤ) else (n : ℤ) - 2 ^ 32

/-- `RaydiumAmmInfo` (`src/types.rs`): integer fields as `ℕ`, pubkeys as
raw 32-byte lists. -/
structure RaydiumAmmInfo where
  status : ℕ
  nonce : ℕ
  max_order : ℕ
  depth : ℕ
  base_decimal : ℕ
  quote_decimal : ℕ
  state : ℕ
  reset_flag : ℕ
  min_size : ℕ
  vol_max_cut_ratio : ℕ
  amount_wave_ratio : ℕ
  base_lot_size : ℕ
  quote_lot_size : ℕ
  min_price_multiplier : ℕ
  max_price_multiplier : ℕ
  system_decimal_value : ℕ
  min_separate_numerator : ℕ
  min_separate_denominator : ℕ
  trade_fee_numerator : ℕ
  trade_fee_denominator : ℕ
  pnl_numerator : ℕ
  pnl_denominator : ℕ
  swap_fee_numerator : ℕ
  swap_fee_denominator : ℕ
  base_need_take_pnl : ℕ
  quote_need_take_pnl : ℕ
  quote_total_pnl : ℕ
  base_total_pnl : ℕ
  pool_open_time : ℕ
  punish_pc_amount : ℕ
  punish_coin_amount : ℕ
  orderbook_to_init_time : ℕ
  swap_base_in_amount : ℕ
  swap_quote_out_amount : ℕ
  swap_base2_quote_fee : ℕ
  swap_quote_in_amount : ℕ
  swap_base_out_amount : ℕ
  swap_quote2_base_fee : ℕ
  base_vault : List UInt8
  quote_vault : List UInt8
  base_mint : List UInt8
  quote_mint : List UInt8
  lp_mint : List UInt8
  open_orders : List UInt8
  market_id : List UInt8
  market_program_id : List UInt8
  target_orders : List UInt8
  withdraw_queue : List UInt8
  token_temp_lp : List UInt8
  amm_owner : List UInt8
  lp_amount : ℕ

/-- `OrcaRewardInfo` (`src/types.rs`). -/
structure OrcaRewardInfo where
  mint : List UInt8
  vault : List UInt8
  authority : List UInt8
  emissions_per_second_x64 : ℕ
  growth_global_x64 : ℕ

/-- `OrcaWhirlpoolInfo` (`src/types.rs`). -/
structure OrcaWhirlpoolInfo where
  start_tick_index : ℤ
  tick_spacing : ℕ
  fee_rate : ℕ
  protocol_fee_rate : ℕ
  liquidity : ℕ
  sqrt_price : ℕ
  tick_current_index : ℤ
  protocol_fee_owed_a : ℕ
  protocol_fee_owed_b : ℕ
  token_mint_a : List UInt8
  token_vault_a : List UInt8
  fee_growth_global_a : ℕ
  token_mint_b : List UInt8
  token_vault_b : List UInt8
  fee_growth_global_b : ℕ
  reward_last_updated_timestamp : ℕ
  reward_infos : List OrcaRewardInfo
  token_vault_a_amount : ℕ
  token_vault_b_amount : ℕ

/-- `MeteoraDLMMInfo` (`src/types.rs`). -/
structure MeteoraDLMMInfo where
  bin_step : ℕ
  active_id : ℤ
  protocol_fee_bps : ℕ
  base_fee_bps : ℕ
  reserve_x : List UInt8
  reserve_y : List UInt8
  mint_x : List UInt8
  mint_y : List UInt8
  oracle_id : ℤ
  liquidity : ℕ
  bin_liquidity : ℕ

/-- `LifinityPoolInfo` (`src/types.rs`). -/
structure LifinityPoolInfo where
  token_a_mint : List UInt8
  token_b_mint : List UInt8
  token_a_vault : List UInt8
  token_b_vault : List UInt8
  fee_rate : ℕ
  oracle : List UInt8

/-- `PhoenixMarketInfo` (`src/types.rs`). -/
structure PhoenixMarketInfo where
  base_mint : List UInt8
  quote_mint : List UInt8
  base_vault : List UInt8
  quote_vault : List UInt8
  base_lot_size : ℕ
  quote_lot_size : ℕ
  tick_size : ℕ
  taker_fee_bps : ℕ

/-- `SerumMarketInfo` (`src/types.rs`). -/
structure SerumMarketInfo where
  base_mint : List UInt8
  quote_mint : List UInt8
  base_vault : List UInt8
  quote_vault : List UInt8
  base_lot_size : ℕ
  quote_lot_size : ℕ
  vault_signer_nonce : ℕ

/-- Borsh `try_from_slice` for `RaydiumAmmInfo` (`parse_raydium_v4`,
`src/pool_parser.rs` lines 57-59). All fields are fixed width, so Borsh
deserialization succeeds exactly when the slice length equals the schema
size (728 bytes: 32 leading `u64`s, the swap counters, 12 pubkeys and a
trailing `u64`), reading each field little-endian at its fixed offset;
any other length is a typed deserialization error (too few bytes, or
`Not all bytes read`). -/
def decodeRaydiumV4 (data : List UInt8) : Except String RaydiumAmmInfo :=
  if data.length = 728 then
    .ok
      { status := readLE data 0 8
        nonce := readLE data 8 8
        max_order := readLE data 16 8
        depth := readLE data 24 8
        base_decimal := readLE data 32 8
        quote_decimal := readLE data 40 8
        state := readLE data 48 8
        reset_flag := readLE data 56 8
        min_size := readLE data 64 8
        vol_max_cut_ratio := readLE data 72 8
        amount_wave_ratio := readLE data 80 8
        base_lot_size := readLE data 88 8
        quote_lot_size := readLE data 96 8
        min_price_multiplier := readLE data 104 8
        max_price_multiplier := readLE data 112 8
        system_decimal_value := readLE data 120 8
        min_separate_numerator := readLE data 128 8
        min_separate_denominator := readLE data 136 8
        trade_fee_numerator := readLE data 144 8
        trade_fee_denominator := readLE data 152 8
        pnl_numerator := readLE data 160 8
        pnl_denominator := readLE data 168 8
        swap_fee_numerator := readLE data 176 8
        swap_fee_denominator := readLE data 184 8
        base_need_take_pnl := readLE data 192 8
        quote_need_take_pnl := readLE data 200 8
        quote_total_pnl := readLE data 208 8
        base_total_pnl := readLE data 216 8
        pool_open_time := readLE data 224 8
        punish_pc_amount := readLE data 232 8
        punish_coin_amount := readLE data 240 8
        orderbook_to_init_time := readLE data 248 8
        swap_base_in_amount := readLE data 256 16
        swap_quote_out_amount := readLE data 272 16
        swap_base2_quote_fee := readLE data 288 8
        swap_quote_in_amount := readLE data 296 16
        swap_base_out_amount := readLE data 312 16
        swap_quote2_base_fee := readLE data 328 8
        base_vault := readPubkey data 336
        quote_vault := readPubkey data 368
        base_mint := readPubkey data 400
        quote_mint := readPubkey data 432
        lp_mint := readPubkey data 464
        open_orders := readPubkey data 496
        market_id := readPubkey data 528
        market_program_id := readPubkey data 560
        target_orders := readPubkey data 592
        withdraw_queue := readPubkey data 624
        token_temp_lp := readPubkey data 656
        amm_owner := readPubkey data 688
        lp_amount := readLE data 720 8 }
  else .error "Erreur parsing Raydium V4"

/-- One `OrcaRewardInfo` (128 bytes) at `offset`. -/
def decodeOrcaRewardInfo (data : List UInt8) (offset : ℕ) : OrcaRewardInfo :=
  { mint := readPubkey data offset
    vault := readPubkey data (offset + 32)
    authority := readPubkey data (offset + 64)
    emissions_per_second_x64 := readLE data (offset + 96) 16
    growth_global_x64 := readLE data (offset + 112) 16 }

/-- Borsh `try_from_slice` for `OrcaWhirlpoolInfo` (`parse_orca_whirlpool`,
`src/pool_parser.rs` lines 108-110); schema size 630 bytes. -/
def decodeOrcaWhirlpool (data : List UInt8) : Except String OrcaWhirlpoolInfo :=
  if data.length = 630 then
    .ok
      { start_tick_index := readI32 data 0
        tick_spacing := readLE data 4 2
        fee_rate := readLE data 6 2
        protocol_fee_rate := readLE data 8 2
        liquidity := readLE data 10 16
        sqrt_price := readLE data 26 16
        tick_current_index := readI32 data 42
        protocol_fee_owed_a := readLE data 46 8
        protocol_fee_owed_b := readLE data 54 8
        token_mint_a := readPubkey data 62
        token_vault_a := readPubkey data 94
        fee_growth_global_a := readLE data 126 16
        token_mint_b := readPubkey data 142
        token_vault_b := readPubkey data 174
        fee_growth_global_b := readLE data 206 16
        reward_last_updated_timestamp := readLE data 222 8
        reward_infos :=
          [decodeOrcaRewardInfo data 230, decodeOrcaRewardInfo data 358,
            decodeOrcaRewardInfo data 486]
        token_vault_a_amount := readLE data 614 8
        token_vault_b_amount := readLE data 622 8 }
  else .error "Erreur parsing Orca Whirlpool"

/-- Borsh `try_from_slice` for `MeteoraDLMMInfo` (`parse_meteora_dlmm`,
`src/pool_parser.rs` lines 152-154); schema size 174 bytes. -/
def decodeMeteoraDLMM (data : List UInt8) : Except String MeteoraDLMMInfo :=
  if data.length = 174 then
    .ok
      { bin_step := readLE data 0 2
        active_id := readI32 data 2
        protocol_fee_bps := readLE data 6 2
        base_fee_bps := readLE data 8 2
        reserve_x := readPubkey data 10
        reserve_y := readPubkey data 42
        mint_x := readPubkey data 74
        mint_y := readPubkey data 106
        oracle_id := readI32 data 138
        liquidity := readLE data 142 16
        bin_liquidity := readLE data 158 16 }
  else .error "Erreur parsing Meteora DLMM"

/-- Borsh `try_from_slice` for `LifinityPoolInfo` (`parse_lifinity`,
`src/pool_parser.rs` lines 199-201); schema size 162 bytes. -/
def decodeLifinity (data : List UInt8) : Except String LifinityPoolInfo :=
  if data.length = 162 then
    .ok
      { token_a_mint := readPubkey data 0
        token_b_mint := readPubkey data 32
        token_a_vault := readPubkey data 64
        token_b_vault := readPubkey data 96
        fee_rate := readLE data 128 2
        oracle := readPubkey data 130 }
  else .error "Erreur parsing Lifinity"

/-- Borsh `try_from_slice` for `PhoenixMarketInfo` (`parse_phoenix`,
`src/pool_parser.rs` lines 243-245); schema size 154 bytes. -/
def decodePhoenix (data : List UInt8) : Except String PhoenixMarketInfo :=
  if data.length = 154 then
    .ok
      { base_mint := readPubkey data 0
        quote_mint := readPubkey data 32
        base_vault := readPubkey data 64
        quote_vault := readPubkey data 96
        base_lot_size := readLE data 128 8
        quote_lot_size := readLE data 136 8
        tick_size := readLE data 144 8
        taker_fee_bps := readLE data 152 2 }
  else .error "Erreur parsing Phoenix"

/-- Borsh `try_from_slice` for `SerumMarketInfo` (`parse_serum`,
`src/pool_parser.rs` lines 287-289); schema size 152 bytes. -/
def decodeSerum (data : List UInt8) : Except String SerumMarketInfo :=
  if data.length = 152 then
    .ok
      { base_mint := readPubkey data 0
        quote_mint := readPubkey data 32
        base_vault := readPubkey data 64
        quote_vault := readPubkey data 96
        base_lot_size := readLE data 128 8
        quote_lot_size := readLE data 136 8
        vault_signer_nonce := readLE data 144 8 }
  else .error "Erreur parsing Serum"

/-- The protocol-specific structure produced by the binary layout
decoding step of `parse_pool`. -/
inductive DecodedPoolLayout
  | raydiumV4 (info : RaydiumAmmInfo)
  | orcaWhirlpool (info : OrcaWhirlpoolInfo)
  | meteoraDLMM (info : MeteoraDLMMInfo)
  | lifinity (info : LifinityPoolInfo)
  | phoenix (info : PhoenixMarketInfo)
  | serum (info : SerumMarketInfo)

/-- The layout-decoding dispatch of `parse_pool` (`src/pool_parser.rs`
lines 37-51): one Borsh decoder per supported protocol; the aggregator
and unknown/unsupported tags fail fast with a typed error. (The reserve
fetches and derived metrics that follow the decode in the Rust code are
network calls outside the byte-decoding contract.) -/
def parsePoolLayout (dexType : DexType) (data : List UInt8) :
    Except String DecodedPoolLayout :=
  match dexType with
  | .raydiumV4 =>
    match decodeRaydiumV4 data with
    | .ok info => .ok (.raydiumV4 info)
    | .error e => .error e
  | .orcaWhirlpool =>
    match decodeOrcaWhirlpool data with
    | .ok info => .ok (.orcaWhirlpool info)
    | .error e => .error e
  | .meteoraDLMM =>
    match decodeMeteoraDLMM data with
    | .ok info => .ok (.meteoraDLMM info)
    | .error e => .error e
  | .lifinity =>
    match decodeLifinity data with
    | .ok info => .ok (.lifinity info)
    | .error e => .error e
  | .phoenix =>
    match decodePhoenix data with
    | .ok info => .ok (.phoenix info)
    | .error e => .error e
  | .serum =>
    match decodeSerum data with
    | .ok info => .ok (.serum info)
    | .error e => .error e
  | .jupiter => .error "Jupiter est un agregateur, pas un pool direct"
  | .unsupported => .error "Type de DEX non supporte"
  | .unknown => .error "Type de DEX inconnu"

/-- The fixed Borsh schema size of each supported protocol layout. -/
def schemaSize : DexType → ℕ
  | .raydiumV4 => 728
  | .orcaWhirlpool => 630
  | .meteoraDLMM => 174
  | .lifinity => 162
  | .phoenix => 154
  | .serum => 152
  | _ => 0

/-- Claim C6: for every byte slice and every protocol tag, layout decoding
is a total function that returns either a decoded pool structure or a
typed error — truncated or oversized slices (length different from the
fixed schema size) always produce the typed error, never a fault. -/
theorem claim_C6 (dexType : DexType) (data : List UInt8) :
    (∃ e, parsePoolLayout dexType data = .error e) ∨
    (∃ p, parsePoolLayout dexType data = .ok p ∧ data.length = schemaSize dexType) := by
  cases dexType with
  | raydiumV4 =>
    cases hd : decodeRaydiumV4 data with
    | error e => exact Or.inl ⟨e, by simp [parsePoolLayout, hd]⟩
    | ok info =>
      have h : data.length = 728 := by
        by_contra hne
        rw [decodeRaydiumV4, if_neg hne] at hd
        exact Except.noConfusion hd
      exact Or.inr ⟨.raydiumV4 info, by simp [parsePoolLayout, hd], h⟩
  | orcaWhirlpool =>
    cases hd : decodeOrcaWhirlpool data with
    | error e => exact Or.inl ⟨e, by simp [parsePoolLayout, hd]⟩
    | ok info =>
      have h : data.length = 630 := by
        by_contra hne
        rw [decodeOrcaWhirlpool, if_neg hne] at hd
        exact Except.noConfusion hd
      exact Or.inr ⟨.orcaWhirlpool info, by simp [parsePoolLayout, hd], h⟩
  | meteoraDLMM =>
    cases hd : decodeMeteoraDLMM data with
    | error e => exact Or.inl ⟨e, by simp [parsePoolLayout, hd]⟩
    | ok info =>
      have h : data.length = 174 := by
        by_contra hne
        rw [decodeMeteoraDLMM, if_neg hne] at hd
        exact Except.noConfusion hd
      exact Or.inr ⟨.meteoraDLMM info, by simp [parsePoolLayout, hd], h⟩
  | lifinity =>
    cases hd : decodeLifinity data with
    | error e => exact Or.inl ⟨e, by simp [parsePoolLayout, hd]⟩
    | ok info =>
      have h : data.length = 162 := by
        by_contra hne
        rw [decodeLifinity, if_neg hne] at hd
        exact Except.noConfusion hd
      exact Or.inr ⟨.lifinity info, by simp [parsePoolLayout, hd], h⟩
  | phoenix =>
    cases hd : decodePhoenix data with
    | error e => exact Or.inl ⟨e, by simp [parsePoolLayout, hd]⟩
    | ok info =>
      have h : data.length = 154 := by
        by_contra hne
        rw [decodePhoenix, if_neg hne] at hd
        exact Except.noConfusion hd
      exact Or.inr ⟨.phoenix info, by simp [parsePoolLayout, hd], h⟩
  | serum =>
    cases hd : decodeSerum data with
    | error e => exact Or.inl ⟨e, by simp [parsePoolLayout, hd]⟩
    | ok info =>
      have h : data.length = 152 := by
        by_contra hne
        rw [decodeSerum, if_neg hne] at hd
        exact Except.noConfusion hd
      exact Or.inr ⟨.serum info, by simp [parsePoolLayout, hd], h⟩
  | jupiter => exact Or.inl ⟨_, rfl⟩
  | unsupported => exact Or.inl ⟨_, rfl⟩
  | unknown => exact Or.inl ⟨_, rfl⟩

/-- `KNOWN_DEX_PROGRAMS` (`src/pool_addresses.rs` lines 9-65), including
the source's duplicate entries. -/
def KNOWN_DEX_PROGRAMS : List (String × String) :=
  [ ("675kPX9MHTjS2zt1qfr1NYHuzeLXfQM9H24wFSUt1Mp8", "Raydium V4")
  , ("RVKd61ztZW9GUwhRbbLoYVRE5Xf1B2tVscKqwZqXgEr", "Raydium V3")
  , ("HWy1jotHpo6UqeQxx49dpYYdQB8wj9Qk9MdxwjLvDHB8", "Raydium V2")
  , ("whirLbMiicVdio4qvUfM5KAg6Ct8VwpYzGff3uctyCc", "Orca Whirlpool")
  , ("9W959DqEETiGZocYWCQPaJ6sBmUzgfxXfqGeTEdp3aQP", "Orca V1")
  , ("DjVE6JNiYqPL2QXyCUUh8rNjHrbz9hXHNYt99MQ59qw1", "Orca V2")
  , ("LBUZKhRxPF3XUpBCjp4YzTKgLccjZhTSDM9YuVaPwxo", "Meteora DLMM")
  , ("CAMMCzo5YL8w4VFF8KVHrK22GGUQpFuLUUamH4uV8K9", "Meteora PCL")
  , ("Eo7WjKq67rjJQSZxS6z3YkapzY3eMj6Xy8X5EQVn5UaB", "Meteora V1")
  , ("JUP6LkbZbjS1jKKwapdHNy74zcZ3tLUZoi5QNyVTaV4", "Jupiter V6")
  , ("JUP4Fb2cqiRUcaTHdrPC8h2gNsA2ETXiPDD33WcGuJB", "Jupiter V4")
  , ("JUP3c2Uh3WA4Ng34tw6kPd2G4C5BB21Xo36Je1s32Ph", "Jupiter V3")
  , ("9xQeWvG816bUx9EPjHmaT23yvVM2ZWbrrpZb9PusVFin", "Serum DEX V3")
  , ("EUqojwWA2rd19FZrzeBncJsm38Jm1hEhE3zsmX3bRc2o", "Serum DEX V2")
  , ("CURVGoZn8zycx6FXwwevgBTB2gVvdbGTEpvMJDbgs2t4", "Aldrin V2")
  , ("AMM55ShdkoGRB5jVYPjWziwk8m5MpwyDgsMWHaMSQWH6", "Aldrin V1")
  , ("SSwpkEEWHu1Wj2jXKJ8JY8vKqJm8vKqJm8vKqJm8vKq", "Saber")
  , ("SSwpMgqNDsyV7mAgN9ady4bDVu5ySjmmXejXvy2vLt1", "Saber V2")
  , ("CTMAxxk34HjKWxQ3QLH1e5kQvQYpKXfJ8vKqJm8vKqJm", "Cropper")
  , ("CTMAxxk34HjKWxQ3QLH1e5kQvQYpKXfJ8vKqJm8vKqJm", "Cropper V2")
  , ("EewxydAPCCVuNEyrVN68PuSYdQ7wKn27V9Gjeoi8dy3S", "Lifinity")
  , ("EewxydAPCCVuNEyrVN68PuSYdQ7wKn27V9Gjeoi8dy3S", "Lifinity V2")
  , ("MERLuDFBMmsHnsBPZw2sDQZHvXFMwp8EdjudcU2HKky", "Mercurial")
  , ("MERLuDFBMmsHnsBPZw2sDQZHvXFMwp8EdjudcU2HKky", "Mercurial V2")
  , ("SARoPv2J2j9cLj2eN7Nd5xZtYyVkQwF8KqJm8vKqJm8v", "Saros")
  , ("SARoPv2J2j9cLj2eN7Nd5xZtYyVkQwF8KqJm8vKqJm8v", "Saros V2")
  , ("PhoeNiLZ3D1nw8vKqJm8vKqJm8vKqJm8vKqJm8vKqJm", "Phoenix")
  , ("PhoeNiLZ3D1nw8vKqJm8vKqJm8vKqJm8vKqJm8vKqJm", "Phoenix V2")
  , ("6EF8rrecthR5Dkzon8Nwu78hRvfCKubJ14M5uBEwF6P", "Pump.fun")
  , ("BSfD6SHZigAfDWSjzD5Q41jw8LmKwtmjskPH9XW1mrRW", "Pump.fun Bonding Curve") ]

/-- `KNOWN_POOL_ACCOUNTS` (`src/pool_addresses.rs` lines 72-95). -/
def KNOWN_POOL_ACCOUNTS : List (String × String) :=
  [ ("58oQChx4yWmvKdwLLZzBi4ChoCc2fqCUWBkwMihLYQo2", "Raydium Vault Authority")
  , ("5Q544fKrFoe6tsEbD7S8EmxGTJYAKtTVhAW5Q5pge4j1", "Raydium Vault Authority #2")
  , ("9rpQJwzKz5zJzJzJzJzJzJzJzJzJzJzJzJzJzJzJzJz", "Raydium Vault Authority #3")
  , ("3LoAYHuSd7Gh8d7RTFnhvYtiTiefdZ5ByamU42vkzd76", "Meteora Market")
  , ("GpMZbSM2GgvTKHJirzeGfMFoaZ8UR2X7F4v8vHTvxFbL", "Meteora Market #2")
  , ("4UW2eDCoQwdfxHgroBPgAqmmQenA9sDfzU1vkA7wmbZJ", "Meteora Market #3")
  , ("2ND8JCiSssPPG2P2SN3FFRKZVVHFn8B44ed3bUarEGFH", "Orca Vault Authority")
  , ("9dpSBCfwxSM8ioGCpFUohEb2UhFbWzBbGYP2fw3jJNKr", "Orca Vault Authority #2")
  , ("GP8StUXNYSZjPikyRsvkTbvRV1GBxMErb59cpeCJnDf1", "Orca Vault Authority #3")
  , ("BKHAEZoG8juE6FVNGtsNt4cJ57XrVW9XENrcKLk32pwn", "Jupiter Vault Authority")
  , ("JUP6LkbZbjS1jKKwapdHNy74zcZ3tLUZoi5QNyVTaV4", "Jupiter Vault Authority #2")
  , ("9xQeWvG816bUx9EPjHmaT23yvVM2ZWbrrpZb9PusVFin", "Serum Market")
  , ("EUqojwWA2rd19FZrzeBncJsm38Jm1hEhE3zsmX3bRc2o", "Serum Market #2") ]

/-- `is_known_dex_program` (`src/pool_addresses.rs` lines 102-109). -/
def isKnownDexProgram (address : String) : Option String :=
  (KNOWN_DEX_PROGRAMS.find? (fun e => decide (e.1 = address))).map (·.2)

/-- `is_known_pool_account` (`src/pool_addresses.rs` lines 112-119). -/
def isKnownPoolAccount (address : String) : Option String :=
  (KNOWN_POOL_ACCOUNTS.find? (fun e => decide (e.1 = address))).map (·.2)

/-- `HashSet::insert` modelled with first-occurrence order. -/
def insertIfAbsent (l : List String) (a : String) : List String :=
  if a ∈ l then l else l ++ [a]

/-- The `all_owners` set of `identify_pool_owners` (`src/monitoring.rs`
lines 666-672): every `owner` appearing in the pre and post balances. -/
def allOwners (pre post : List UiTokenBalance) : List String :=
  (pre ++ post).foldl
    (fun acc b =>
      match b.owner with
      | some o => insertIfAbsent acc o
      | none => acc)
    []

/-- The per-owner balance-change scan of `identify_pool_owners`
(`src/monitoring.rs` lines 689-721): `(token_count, total_change,
has_large_balance_changes)`. -/
def ownerChangeStats (pre post : List UiTokenBalance) (owner : String) : ℕ × ℚ × Bool :=
  pre.foldl
    (fun acc b =>
      if b.owner = some owner then
        match findBalance post owner b.mint with
        | some pb =>
          let change := |amountOf pb - amountOf b|
          (acc.1 + 1, acc.2.1 + change, acc.2.2 || decide (change > 1000))
        | none => acc
      else acc)
    (0, 0, false)

/-- The pool-owner classification of `identify_pool_owners`: a known DEX
program, a known pool account, or the balance-change heuristic
(≥ 2 mints, one change above 1000 and a total change above 10000). -/
def isPoolOwner (pre post : List UiTokenBalance) (owner : String) : Bool :=
  (isKnownDexProgram owner).isSome || (isKnownPoolAccount owner).isSome ||
    (let s := ownerChangeStats pre post owner
     decide (2 ≤ s.1) && s.2.2 && decide (s.2.1 > 10000))

/-- The owner list accumulated by `identify_pool_owners`. -/
def poolOwnersOf (pre post : List UiTokenBalance) : List String :=
  (allOwners pre post).filter (isPoolOwner pre post)

/-- `identify_pool_owners` (`src/monitoring.rs` lines 658-734). -/
def identifyPoolOwners (pre post : List UiTokenBalance) : Except String (List String) :=
  if (poolOwnersOf pre post).isEmpty then
    .error "Aucun owner de pool DEX identifie dans la transaction"
  else .ok (poolOwnersOf pre post)

/-- `Pubkey::default().to_string()`. -/
def defaultPubkey : String := "11111111111111111111111111111111"

/-- `determine_dex_type` (`src/monitoring.rs` lines 920-946). -/
def determineDexType (owner : String) : DexType :=
  match isKnownDexProgram owner with
  | some dexName =>
    if dexName = "Raydium V4" then .raydiumV4
    else if dexName = "Orca Whirlpool" then .orcaWhirlpool
    else if dexName = "Meteora DLMM" then .meteoraDLMM
    else if dexName = "Jupiter V6" then .jupiter
    else .unknown
  | none =>
    match isKnownPoolAccount owner with
    | some poolName =>
      if strContains poolName "Raydium" then .raydiumV4
      else if strContains poolName "Meteora" then .meteoraDLMM
      else if strContains poolName "Orca" then .orcaWhirlpool
      else if strContains poolName "Jupiter" then .jupiter
      else .unknown
    | none => .unknown

/-- The per-owner scan of `extract_pools_from_balances`
(`src/monitoring.rs` lines 748-814): collect the pool owner's
pre/post/change triple for the target mint and for a quote mint (wrapped
SOL or USDC), then build a `PoolInfo` whose reserves are the
pre-transaction balances cast to `u64`. -/
def extractPoolForOwner (pre post : List UiTokenBalance) (tokenMint poolOwner : String) :
    Option PoolInfo :=
  let scan :=
    pre.foldl
      (fun (acc : Option (ℚ × ℚ × ℚ) × Option (ℚ × ℚ × ℚ)) b =>
        if b.owner = some poolOwner then
          match findBalance post poolOwner b.mint with
          | some pb =>
            let change := amountOf pb - amountOf b
            if b.mint = tokenMint then (some (amountOf b, amountOf pb, change), acc.2)
            else if b.mint = WSOL_MINT ∨ b.mint = USDC_MINT then
              (acc.1, some (amountOf b, amountOf pb, change))
            else acc
          | none => acc
        else acc)
      (none, none)
  match scan with
  | (some tokenBal, some quoteBal) =>
    some
      { dex_type := determineDexType poolOwner
        program_id := defaultPubkey
        pool_id := defaultPubkey
        token_a_mint := tokenMint
        token_b_mint := if quoteBal.1 > 0 then WSOL_MINT else USDC_MINT
        token_a_vault := defaultPubkey
        token_b_vault := defaultPubkey
        reserve_a := f64ToU64 tokenBal.1
        reserve_b := f64ToU64 quoteBal.1
        fee_bps := 30
        tick_spacing := none
        tick_current := none
        bin_step := none
        liquidity_usd := 0
        token_a_liquidity := tokenBal.1
        token_b_liquidity := quoteBal.1
        market_cap_usd := none
        token_price_usd := none
        total_supply := none }
  | _ => none

/-- `extract_pools_from_balances` (`src/monitoring.rs` lines 737-817). -/
def extractPoolsFromBalances (pre post : List UiTokenBalance) (poolOwners : List String)
    (tokenMint : String) : List PoolInfo :=
  poolOwners.filterMap (extractPoolForOwner pre post tokenMint)

/-- `calculate_mcap_impact_with_extracted_pools` (`src/monitoring.rs`
lines 820-849). With exactly one pool the single-pool computation runs
directly; with several pools the dominant pool is selected and its
reserves are checked for zero. Indexing `pools[0]` on an empty slice
panics in Rust, modelled as a typed error. -/
def calculateMcapImpactWithExtractedPools (pools : List PoolInfo) (tokenMint : String)
    (tokensReceived circulatingSupply : ℚ) (solPriceOpt : Option ℚ) :
    Except String (ℚ × ℚ × ℚ) :=
  match solPriceOpt with
  | none => .error "Prix SOL non disponible - attente du cache"
  | some solPrice =>
    match pools with
    | [pool] =>
      .ok (calculateMcapImpactSinglePool pool tokenMint tokensReceived circulatingSupply solPrice)
    | _ =>
      match findDominantPool pools tokenMint solPrice with
      | none => .error "index out of bounds"
      | some (dominantPool, _dominanceRatio) =>
        if dominantPool.reserve_a = 0 ∨ dominantPool.reserve_b = 0 then
          .error "Pool dominante mal parsee - reserves nulles"
        else
          .ok (calculateMcapImpactSinglePool dominantPool tokenMint tokensReceived
            circulatingSupply solPrice)

/-- `calculate_mcap_impact_from_transaction_pools` (`src/monitoring.rs`
lines 630-655). -/
def calculateMcapImpactFromTransactionPools (pre post : List UiTokenBalance)
    (tokenMint : String) (tokensReceived circulatingSupply : ℚ)
    (solPriceOpt : Option ℚ) : Except String (ℚ × ℚ × ℚ) :=
  match identifyPoolOwners pre post with
  | .error e => .error e
  | .ok poolOwners =>
    if poolOwners.isEmpty then
      .error "Aucun owner de pool identifie dans la transaction"
    else
      let pools := extractPoolsFromBalances pre post poolOwners tokenMint
      if pools.isEmpty then .error "Aucune pool extraite de la transaction"
      else
        calculateMcapImpactWithExtractedPools pools tokenMint tokensReceived
          circulatingSupply solPriceOpt

/-- The Raydium V4 program address, used below as a balance owner. -/
def RAYDIUM_V4_PROGRAM : String := "675kPX9MHTjS2zt1qfr1NYHuzeLXfQM9H24wFSUt1Mp8"

/-- Pre-balances of a transaction touching a single Raydium-owned pool
whose token-side reserve is zero. -/
def preC2 : List UiTokenBalance :=
  [ { mint := "TOK", owner := some RAYDIUM_V4_PROGRAM, uiAmount := some 0 }
  , { mint := WSOL_MINT, owner := some RAYDIUM_V4_PROGRAM, uiAmount := some 5 } ]

/-- Post-balances of the same transaction. -/
def postC2 : List UiTokenBalance :=
  [ { mint := "TOK", owner := some RAYDIUM_V4_PROGRAM, uiAmount := some 100 }
  , { mint := WSOL_MINT, owner := some RAYDIUM_V4_PROGRAM, uiAmount := some 4 } ]

/-- Counterexample to claim C2 as stated: a transaction from which exactly
one candidate pool is extracted, whose token-side reserve (`reserve_a`)
is zero, and for which the market-impact calculator nevertheless returns
`Ok` — not the typed error the claim requires for every zero-reserve
selected pool. -/
theorem claim_C2_counterexample :
    ((extractPoolsFromBalances preC2 postC2 (poolOwnersOf preC2 postC2) "TOK").map
      (fun p => p.reserve_a)) = [0] ∧
    (calculateMcapImpactFromTransactionPools preC2 postC2 "TOK" 100 1000
      (some 200)).isOk = true := by
  constructor
  · rfl
  · rfl

/-- Claim C2, amended: the calculator returns a typed error whenever no
pool-owning account is identifiable, and — when more than one candidate
pool was extracted — whenever the selected dominant pool has a zero
reserve; but when exactly one candidate pool is extracted, no zero-reserve
check is performed and a numeric result is returned unconditionally. -/
theorem claim_C2 :
    (∀ (pre post : List UiTokenBalance) (tokenMint : String)
        (tokensReceived circulatingSupply : ℚ) (solPriceOpt : Option ℚ),
      poolOwnersOf pre post = [] →
      ∃ e, calculateMcapImpactFromTransactionPools pre post tokenMint tokensReceived
        circulatingSupply solPriceOpt = .error e) ∧
    (∀ (p1 p2 : PoolInfo) (rest : List PoolInfo) (tokenMint : String)
        (tokensReceived circulatingSupply solPrice : ℚ) (dom : PoolInfo) (ratio : ℚ),
      findDominantPool (p1 :: p2 :: rest) tokenMint solPrice = some (dom, ratio) →
      dom.reserve_a = 0 ∨ dom.reserve_b = 0 →
      ∃ e, calculateMcapImpactWithExtractedPools (p1 :: p2 :: rest) tokenMint
        tokensReceived circulatingSupply (some solPrice) = .error e) ∧
    (∀ (pool : PoolInfo) (tokenMint : String)
        (tokensReceived circulatingSupply solPrice : ℚ),
      calculateMcapImpactWithExtractedPools [pool] tokenMint tokensReceived
        circulatingSupply (some solPrice) =
        .ok (calculateMcapImpactSinglePool pool tokenMint tokensReceived
          circulatingSupply solPrice)) := by
  refine ⟨?_, ?_, ?_⟩
  · intro pre post tokenMint tokensReceived circulatingSupply solPriceOpt h
    refine ⟨"Aucun owner de pool DEX identifie dans la transaction", ?_⟩
    rw [calculateMcapImpactFromTransactionPools, identifyPoolOwners, h]
    rfl
  · intro p1 p2 rest tokenMint tokensReceived circulatingSupply solPrice dom ratio hfind hzero
    refine ⟨"Pool dominante mal parsee - reserves nulles", ?_⟩
    rw [calculateMcapImpactWithExtractedPools]
    · simp only [hfind]
      rw [if_pos hzero]
    · intro pool hcontra
      simp at hcontra
  · intro pool tokenMint tokensReceived circulatingSupply solPrice
    rfl

/-- Two-pool configuration for the C2 witness: the dominant pool (quote
reserve 900, USD liquidity 1800) has a zero token-side reserve. -/
def poolC2Dominant : PoolInfo := { examplePool with reserve_a := 0, reserve_b := 900 }

/-- The smaller pool of the C2 witness (quote reserve 100, liquidity 200). -/
def poolC2Small : PoolInfo := { examplePool with reserve_b := 100 }

/-- Witness for C2 (amended): the typed error fires on an ownerless
transaction, and on a two-pool selection whose dominant pool has zero
reserves; the single-pool path returns `Ok`. -/
theorem claim_C2_witness :
    (∃ e, calculateMcapImpactFromTransactionPools [] [] "TOK" 1 1 (some 200) = .error e) ∧
    (∃ e, calculateMcapImpactWithExtractedPools [poolC2Dominant, poolC2Small] "TOK" 1 1
      (some 200) = .error e) ∧
    calculateMcapImpactWithExtractedPools [examplePool] "TOK" 1 1 (some 200) =
      .ok (calculateMcapImpactSinglePool examplePool "TOK" 1 1 200) := by
  have hdom : findDominantPool [poolC2Dominant, poolC2Small] "TOK" 200 =
      some (poolC2Dominant, 9 / 10) := by
    have hA : poolLiquidityUsd poolC2Dominant "TOK" 200 = 1800 := by
      norm_num [poolLiquidityUsd, poolReserves, poolC2Dominant, examplePool,
        WSOL_MINT, USDC_MINT] <;> decide
    have hB : poolLiquidityUsd poolC2Small "TOK" 200 = 200 := by
      norm_num [poolLiquidityUsd, poolReserves, poolC2Small, examplePool,
        WSOL_MINT, USDC_MINT] <;> decide
    rw [findDominantPool]
    simp only [List.foldl_cons, List.foldl_nil]
    rw [dominantStep, dominantStep]
    rw [hA, hB]
    norm_num
  refine ⟨?_, ?_, ?_⟩
  · exact claim_C2.1 [] [] "TOK" 1 1 (some 200) rfl
  · exact claim_C2.2.1 poolC2Dominant poolC2Small [] "TOK" 1 1 200 poolC2Dominant (9 / 10)
      hdom (Or.inl rfl)
  · exact claim_C2.2.2 examplePool "TOK" 1 1 200

/-- One step of the first loop of `analyze_tokens_from_pre_post_balances`
(`src/monitoring.rs` lines 531-559): a user-owned pre balance with a
matching post balance records `(pre, post, post - pre)` for its mint in
the `balance_changes` map. -/
def applyPreBalance (post : List UiTokenBalance) (user : String)
    (acc : List (String × ℚ × ℚ × ℚ)) (b : UiTokenBalance) :
    List (String × ℚ × ℚ × ℚ) :=
  if b.owner = some user then
    match findBalance post user b.mint with
    | some pb => assocInsert acc b.mint (amountOf b, amountOf pb, amountOf pb - amountOf b)
    | none => acc
  else acc

/-- The first loop over the pre balances. -/
def step1 (post : List UiTokenBalance) (user : String) :
    List UiTokenBalance → List (String × ℚ × ℚ × ℚ) → List (String × ℚ × ℚ × ℚ)
  | [], acc => acc
  | b :: rest, acc => step1 post user rest (applyPreBalance post user acc b)

/-- One step of the second loop (lines 562-582): a user-owned post balance
whose mint is not yet in the map is a freshly received token with an
implicit zero pre balance, `(0, post, post)`. -/
def applyPostBalance (user : String) (acc : List (String × ℚ × ℚ × ℚ))
    (b : UiTokenBalance) : List (String × ℚ × ℚ × ℚ) :=
  if b.owner = some user then
    if (assocLookup acc b.mint).isNone then
      assocInsert acc b.mint (0, amountOf b, amountOf b)
    else acc
  else acc

/-- The second loop over the post balances. -/
def step2 (user : String) :
    List UiTokenBalance → List (String × ℚ × ℚ × ℚ) → List (String × ℚ × ℚ × ℚ)
  | [], acc => acc
  | b :: rest, acc => step2 user rest (applyPostBalance user acc b)

/-- The `balance_changes` map after both loops. The Rust `AHashMap` has
unspecified iteration order; it is modelled with insertion order. -/
def balanceChangesOf (pre post : List UiTokenBalance) (user : String) :
    List (String × ℚ × ℚ × ℚ) :=
  step2 user post (step1 post user pre [])

/-- The candidate filter (lines 584-590): non-system mints whose change is
strictly between 1 and 1e9, paired with their change. -/
def candidatesOf (pre post : List UiTokenBalance) (user : String) : List (String × ℚ) :=
  (balanceChangesOf pre post user).filterMap
    (fun e =>
      if e.1 ∉ SYSTEM_TOKENS ∧ 1 < e.2.2.2 ∧ e.2.2.2 < 1000000000 then
        some (e.1, e.2.2.2)
      else none)

/-- `analyze_tokens_from_pre_post_balances` (`src/monitoring.rs` lines
520-602): the first candidate, or a typed error when there is none. The
mint is kept as its string form (the Rust code re-parses it into a
`Pubkey`). -/
def analyzeTokensFromPrePostBalances (pre post : List UiTokenBalance) (user : String) :
    Except String (String × ℚ) :=
  match candidatesOf pre post user with
  | [] => .error "Aucun token non-systeme recu detecte"
  | c :: _ => .ok c

/-- The balance increase of `mint` for the user as the specification words
it: the user's post amount (zero when no user-owned post record exists)
minus the user's pre amount (zero when no user-owned pre record exists). -/
def specUserIncrease (pre post : List UiTokenBalance) (user mint : String) : ℚ :=
  (match findBalance post user mint with
   | some pb => amountOf pb
   | none => 0) -
  (match findBalance pre user mint with
   | some b => amountOf b
   | none => 0)

theorem mem_keys_assocInsert {α : Type} (m : List (String × α)) (k a : String) (v : α) :
    a ∈ (assocInsert m k v).map (·.1) ↔ a ∈ m.map (·.1) ∨ a = k := by
  induction m with
  | nil => simp [assocInsert]
  | cons e rest ih =>
    by_cases he : e.1 = k
    · simp [assocInsert, he]
      tauto
    · simp [assocInsert, he, ih]
      tauto

theorem nodup_keys_assocInsert {α : Type} (m : List (String × α)) (k : String) (v : α)
    (h : (m.map (·.1)).Nodup) : ((assocInsert m k v).map (·.1)).Nodup := by
  induction m with
  | nil => simp [assocInsert]
  | cons e rest ih =>
    rw [List.map_cons, List.nodup_cons] at h
    by_cases he : e.1 = k
    · simp only [assocInsert, if_pos he, List.map_cons, List.nodup_cons]
      exact ⟨by rw [← he]; exact h.1, h.2⟩
    · simp only [assocInsert, if_neg he, List.map_cons, List.nodup_cons]
      refine ⟨?_, ih h.2⟩
      rw [mem_keys_assocInsert]
      rintro (hm | hm)
      · exact h.1 hm
      · exact he hm

theorem assocLookup_eq_some_iff {α : Type} (m : List (String × α))
    (h : (m.map (·.1)).Nodup) (k : String) (v : α) :
    assocLookup m k = some v ↔ (k, v) ∈ m := by
  induction m with
  | nil => simp [assocLookup]
  | cons e rest ih =>
    obtain ⟨k', v'⟩ := e
    rw [List.map_cons, List.nodup_cons] at h
    by_cases he : k' = k
    · subst he
      have hl : assocLookup ((k', v') :: rest) k' = some v' := by
        simp [assocLookup]
      rw [hl]
      simp only [Option.some.injEq, List.mem_cons, Prod.mk.injEq]
      constructor
      · rintro rfl
        exact Or.inl ⟨trivial, rfl⟩
      · rintro (⟨_, rfl⟩ | hmem)
        · rfl
        · exact absurd (List.mem_map.mpr ⟨(k', v), hmem, rfl⟩) h.1
    · have hl : assocLookup ((k', v') :: rest) k = assocLookup rest k := by
        simp [assocLookup, he]
      rw [hl, ih h.2]
      simp only [List.mem_cons, Prod.mk.injEq]
      constructor
      · exact Or.inr
      · rintro (⟨h1, _⟩ | hmem)
        · exact absurd h1.symm he
        · exact hmem

theorem findBalance_eq_none_of_not_mem (l : List UiTokenBalance) (user m : String)
    (h : m ∉ (l.filter (fun b => decide (b.owner = some user))).map (·.mint)) :
    findBalance l user m = none := by
  rw [findBalance, List.find?_eq_none]
  intro x hx hpx
  rw [decide_eq_true_eq] at hpx
  exact h (List.mem_map.mpr ⟨x, List.mem_filter.mpr ⟨hx, by simp [hpx.2]⟩, hpx.1⟩)

theorem findBalance_cons_of_match (b : UiTokenBalance) (l : List UiTokenBalance)
    (user : String) (howner : b.owner = some user) :
    findBalance (b :: l) user b.mint = some b := by
  rw [findBalance, List.find?_cons_of_pos]
  simp [howner]

theorem findBalance_cons_of_mint_ne (b : UiTokenBalance) (l : List UiTokenBalance)
    (user m : String) (hmint : b.mint ≠ m) :
    findBalance (b :: l) user m = findBalance l user m := by
  rw [findBalance, findBalance, List.find?_cons_of_neg]
  simp [hmint]

theorem findBalance_cons_of_owner_ne (b : UiTokenBalance) (l : List UiTokenBalance)
    (user m : String) (howner : b.owner ≠ some user) :
    findBalance (b :: l) user m = findBalance l user m := by
  rw [findBalance, findBalance, List.find?_cons_of_neg]
  simp [howner]

theorem lookup_step1 (post : List UiTokenBalance) (user : String) :
    ∀ (pre : List UiTokenBalance) (acc : List (String × ℚ × ℚ × ℚ)) (m : String),
      ((pre.filter (fun b => decide (b.owner = some user))).map (·.mint)).Nodup →
      assocLookup (step1 post user pre acc) m =
        match findBalance pre user m with
        | some b =>
          match findBalance post user m with
          | some pb => some (amountOf b, amountOf pb, amountOf pb - amountOf b)
          | none => assocLookup acc m
        | none => assocLookup acc m := by
  intro pre
  induction pre with
  | nil =>
    intro acc m _
    simp only [step1, findBalance, List.find?]
  | cons b rest ih =>
    intro acc m hnodup
    rw [step1]
    by_cases howner : b.owner = some user
    · have hfilter : (b :: rest).filter (fun x => decide (x.owner = some user)) =
          b :: rest.filter (fun x => decide (x.owner = some user)) := by
        simp [List.filter_cons, howner]
      rw [hfilter, List.map_cons, List.nodup_cons] at hnodup
      by_cases hmint : b.mint = m
      · have hrest : findBalance rest user m = none :=
          findBalance_eq_none_of_not_mem rest user m (by rw [← hmint]; exact hnodup.1)
        have hfind : findBalance (b :: rest) user m = some b := by
          rw [← hmint]
          exact findBalance_cons_of_match b rest user howner
        rw [hfind]
        cases hpost : findBalance post user m with
        | none =>
          have happ : applyPreBalance post user acc b = acc := by
            rw [applyPreBalance, if_pos howner, hmint, hpost]
          rw [happ, ih acc m hnodup.2, hrest]
        | some pb =>
          have happ : applyPreBalance post user acc b =
              assocInsert acc m (amountOf b, amountOf pb, amountOf pb - amountOf b) := by
            rw [applyPreBalance, if_pos howner, hmint, hpost]
          rw [happ, ih _ m hnodup.2, hrest, assocLookup_insert_self]
      · have hfind : findBalance (b :: rest) user m = findBalance rest user m :=
          findBalance_cons_of_mint_ne b rest user m hmint
        rw [hfind]
        have hlook : assocLookup (applyPreBalance post user acc b) m = assocLookup acc m := by
          rw [applyPreBalance, if_pos howner]
          cases hpost : findBalance post user b.mint with
          | none => rfl
          | some pb => exact assocLookup_insert_ne acc b.mint m _ (fun h => hmint h.symm)
        rw [ih _ m hnodup.2, hlook]
    · have happ : applyPreBalance post user acc b = acc := by
        rw [applyPreBalance, if_neg howner]
      have hfind : findBalance (b :: rest) user m = findBalance rest user m :=
        findBalance_cons_of_owner_ne b rest user m howner
      have hnodup' :
          ((rest.filter (fun x => decide (x.owner = some user))).map (·.mint)).Nodup := by
        have hfilter : (b :: rest).filter (fun x => decide (x.owner = some user)) =
            rest.filter (fun x => decide (x.owner = some user)) := by
          simp [List.filter_cons, howner]
        rwa [hfilter] at hnodup
      rw [happ, hfind, ih acc m hnodup']

theorem lookup_step2 (user : String) :
    ∀ (post : List UiTokenBalance) (acc : List (String × ℚ × ℚ × ℚ)) (m : String),
      assocLookup (step2 user post acc) m =
        match assocLookup acc m with
        | some v => some v
        | none =>
          match findBalance post user m with
          | some pb => some (0, amountOf pb, amountOf pb)
          | none => none := by
  intro post
  induction post with
  | nil =>
    intro acc m
    rw [step2]
    cases assocLookup acc m <;> simp [findBalance, List.find?]
  | cons b rest ih =>
    intro acc m
    rw [step2]
    by_cases howner : b.owner = some user
    · by_cases hmint : b.mint = m
      · subst hmint
        have hfind : findBalance (b :: rest) user b.mint = some b :=
          findBalance_cons_of_match b rest user howner
        cases hacc : assocLookup acc b.mint with
        | some w =>
          have happ : applyPostBalance user acc b = acc := by
            rw [applyPostBalance, if_pos howner, hacc]
            rfl
          rw [happ, ih acc b.mint, hacc, hfind]
        | none =>
          have happ : applyPostBalance user acc b =
              assocInsert acc b.mint (0, amountOf b, amountOf b) := by
            rw [applyPostBalance, if_pos howner, hacc]
            rfl
          rw [happ, ih _ b.mint, assocLookup_insert_self]
          simp [hacc, hfind]
      · have hfind : findBalance (b :: rest) user m = findBalance rest user m :=
          findBalance_cons_of_mint_ne b rest user m hmint
        have hlook : assocLookup (applyPostBalance user acc b) m = assocLookup acc m := by
          rw [applyPostBalance, if_pos howner]
          cases hacc : assocLookup acc b.mint with
          | some w => rfl
          | none =>
            show assocLookup (assocInsert acc b.mint (0, amountOf b, amountOf b)) m = _
            exact assocLookup_insert_ne acc b.mint m _ (fun h => hmint h.symm)
        rw [ih _ m, hlook, hfind]
    · have happ : applyPostBalance user acc b = acc := by
        rw [applyPostBalance, if_neg howner]
      have hfind : findBalance (b :: rest) user m = findBalance rest user m :=
        findBalance_cons_of_owner_ne b rest user m howner
      rw [happ, ih acc m, hfind]

theorem nodup_keys_step1 (post : List UiTokenBalance) (user : String) :
    ∀ (pre : List UiTokenBalance) (acc : List (String × ℚ × ℚ × ℚ)),
      ((acc.map (·.1)).Nodup) → (((step1 post user pre acc).map (·.1)).Nodup) := by
  intro pre
  induction pre with
  | nil => intro acc h; exact h
  | cons b rest ih =>
    intro acc h
    rw [step1]
    apply ih
    rw [applyPreBalance]
    split
    · split
      · exact nodup_keys_assocInsert acc b.mint _ h
      · exact h
    · exact h

theorem nodup_keys_step2 (user : String) :
    ∀ (post : List UiTokenBalance) (acc : List (String × ℚ × ℚ × ℚ)),
      ((acc.map (·.1)).Nodup) → (((step2 user post acc).map (·.1)).Nodup) := by
  intro post
  induction post with
  | nil => intro acc h; exact h
  | cons b rest ih =>
    intro acc h
    rw [step2]
    apply ih
    rw [applyPostBalance]
    split
    · split
      · exact nodup_keys_assocInsert acc b.mint _ h
      · exact h
    · exact h

theorem nodup_keys_balanceChanges (pre post : List UiTokenBalance) (user : String) :
    (((balanceChangesOf pre post user).map (·.1)).Nodup) :=
  nodup_keys_step2 user post _ (nodup_keys_step1 post user pre [] (by simp))

/-- The value recorded in `balance_changes` for a mint, when the user's
pre-balance mints have no duplicates: the map holds an entry exactly for
the mints with a user-owned post balance, with pre amount defaulting to
zero and change `post - pre`. -/
theorem lookup_balanceChanges (pre post : List UiTokenBalance) (user m : String)
    (hnodup : ((pre.filter (fun b => decide (b.owner = some user))).map (·.mint)).Nodup) :
    assocLookup (balanceChangesOf pre post user) m =
      match findBalance post user m with
      | none => none
      | some pb =>
        match findBalance pre user m with
        | some b => some (amountOf b, amountOf pb, amountOf pb - amountOf b)
        | none => some (0, amountOf pb, amountOf pb) := by
  rw [balanceChangesOf, lookup_step2, lookup_step1 post user pre [] m hnodup]
  cases hpre : findBalance pre user m with
  | some b =>
    cases hpost : findBalance post user m with
    | some pb => rfl
    | none => simp [assocLookup]
  | none =>
    cases hpost : findBalance post user m with
    | some pb => simp [assocLookup]
    | none => simp [assocLookup]

/-- Claim C3: the candidate received tokens are exactly the non-system
mints whose user-owned balance increased by strictly more than 1 and
strictly less than 1e9 units, a post-only mint counting its full post
amount (its pre amount defaulting to zero); the analyzer returns the
first candidate and a typed error when none exists; and a transaction
with no pre-balance for mint `X` and a user-owned post balance of 500
reports 500 received tokens of mint `X`. (The `balance_changes` hash map
is modelled with insertion iteration order, and the user's pre-balance
records are assumed to carry distinct mints and non-negative amounts, as
on-chain balance lists do.) -/
theorem claim_C3 :
    (∀ (pre post : List UiTokenBalance) (user m : String),
      ((pre.filter (fun b => decide (b.owner = some user))).map (·.mint)).Nodup →
      (∀ b ∈ pre, 0 ≤ amountOf b) →
      (m ∈ (candidatesOf pre post user).map (·.1) ↔
        (m ∉ SYSTEM_TOKENS ∧ 1 < specUserIncrease pre post user m ∧
          specUserIncrease pre post user m < 1000000000))) ∧
    (∀ (pre post : List UiTokenBalance) (user : String),
      ((candidatesOf pre post user = []) ↔
        ∃ e, analyzeTokensFromPrePostBalances pre post user = .error e) ∧
      ∀ c rest, candidatesOf pre post user = c :: rest →
        analyzeTokensFromPrePostBalances pre post user = .ok c) ∧
    analyzeTokensFromPrePostBalances []
      [{ mint := "X", owner := some "USER", uiAmount := some 500 }] "USER" =
      .ok ("X", 500) := by
  refine ⟨?_, ?_, ?_⟩
  · intro pre post user m hnodup hnonneg
    have hbc := lookup_balanceChanges pre post user m hnodup
    constructor
    · intro hmem
      obtain ⟨x, hx, hfst⟩ := List.mem_map.mp hmem
      obtain ⟨e, he, hfe⟩ := List.mem_filterMap.mp hx
      by_cases hpred : e.1 ∉ SYSTEM_TOKENS ∧ 1 < e.2.2.2 ∧ e.2.2.2 < 1000000000
      · rw [if_pos hpred] at hfe
        have hx' : x = (e.1, e.2.2.2) := by
          injection hfe with h
          exact h.symm
        have hm : m = e.1 := by rw [← hfst, hx']
        subst hm
        have hlook : assocLookup (balanceChangesOf pre post user) e.1 = some e.2 :=
          (assocLookup_eq_some_iff _ (nodup_keys_balanceChanges pre post user) e.1 e.2).mpr
            (by simpa using he)
        rw [hbc] at hlook
        cases hpost : findBalance post user e.1 with
        | none =>
          rw [hpost] at hlook
          exact absurd hlook (by simp)
        | some pb =>
          rw [hpost] at hlook
          cases hpre2 : findBalance pre user e.1 with
          | some b =>
            rw [hpre2] at hlook
            injection hlook with hv
            have hdiff : e.2.2.2 = amountOf pb - amountOf b := by rw [← hv]
            have hspec : specUserIncrease pre post user e.1 = amountOf pb - amountOf b := by
              rw [specUserIncrease, hpost, hpre2]
            rw [hspec, ← hdiff]
            exact hpred
          | none =>
            rw [hpre2] at hlook
            injection hlook with hv
            have hdiff : e.2.2.2 = amountOf pb := by rw [← hv]
            have hspec : specUserIncrease pre post user e.1 = amountOf pb := by
              rw [specUserIncrease, hpost, hpre2]
              ring
            rw [hspec, ← hdiff]
            exact hpred
      · rw [if_neg hpred] at hfe
        exact absurd hfe (by simp)
    · rintro ⟨hsys, hlo, hhi⟩
      cases hpost : findBalance post user m with
      | none =>
        exfalso
        have hspec : specUserIncrease pre post user m ≤ 0 := by
          rw [specUserIncrease, hpost]
          cases hpre2 : findBalance pre user m with
          | none => norm_num
          | some b =>
            have hb : b ∈ pre := List.mem_of_find?_eq_some hpre2
            have := hnonneg b hb
            simp only [zero_sub, neg_nonpos]
            linarith
        linarith
      | some pb =>
        have hpb : pb ∈ post := List.mem_of_find?_eq_some hpost
        cases hpre2 : findBalance pre user m with
        | some b =>
          have hspec : specUserIncrease pre post user m = amountOf pb - amountOf b := by
            rw [specUserIncrease, hpost, hpre2]
          have hlook : assocLookup (balanceChangesOf pre post user) m =
              some (amountOf b, amountOf pb, amountOf pb - amountOf b) := by
            rw [hbc, hpost, hpre2]
          have hmem2 : (m, (amountOf b, amountOf pb, amountOf pb - amountOf b)) ∈
              balanceChangesOf pre post user :=
            (assocLookup_eq_some_iff _ (nodup_keys_balanceChanges pre post user) _ _).mp hlook
          apply List.mem_map.mpr
          refine ⟨(m, amountOf pb - amountOf b), ?_, rfl⟩
          apply List.mem_filterMap.mpr
          refine ⟨(m, (amountOf b, amountOf pb, amountOf pb - amountOf b)), hmem2, ?_⟩
          rw [if_pos]
          exact ⟨hsys, by rw [← hspec]; exact hlo, by rw [← hspec]; exact hhi⟩
        | none =>
          have hspec : specUserIncrease pre post user m = amountOf pb := by
            rw [specUserIncrease, hpost, hpre2]
            ring
          have hlook : assocLookup (balanceChangesOf pre post user) m =
              some (0, amountOf pb, amountOf pb) := by
            rw [hbc, hpost, hpre2]
          have hmem2 : (m, ((0 : ℚ), amountOf pb, amountOf pb)) ∈
              balanceChangesOf pre post user :=
            (assocLookup_eq_some_iff _ (nodup_keys_balanceChanges pre post user) _ _).mp hlook
          apply List.mem_map.mpr
          refine ⟨(m, amountOf pb), ?_, rfl⟩
          apply List.mem_filterMap.mpr
          refine ⟨(m, ((0 : ℚ), amountOf pb, amountOf pb)), hmem2, ?_⟩
          rw [if_pos]
          exact ⟨hsys, by rw [← hspec]; exact hlo, by rw [← hspec]; exact hhi⟩
  · intro pre post user
    constructor
    · constructor
      · intro h
        rw [analyzeTokensFromPrePostBalances, h]
        exact ⟨_, rfl⟩
      · rintro ⟨e, he⟩
        rw [analyzeTokensFromPrePostBalances] at he
        cases hc : candidatesOf pre post user with
        | nil => rfl
        | cons c rest =>
          rw [hc] at he
          exact Except.noConfusion he
    · intro c rest hc
      rw [analyzeTokensFromPrePostBalances, hc]
  · rfl

/-- Witness for C3: the candidate characterization instantiated at the
new-position transaction (post-only balance of 500 for mint `X`). -/
theorem claim_C3_witness :
    "X" ∈ (candidatesOf []
        [{ mint := "X", owner := some "USER", uiAmount := some 500 }] "USER").map (·.1) ↔
      ("X" ∉ SYSTEM_TOKENS ∧
        1 < specUserIncrease []
          [{ mint := "X", owner := some "USER", uiAmount := some 500 }] "USER" "X" ∧
        specUserIncrease []
          [{ mint := "X", owner := some "USER", uiAmount := some 500 }] "USER" "X" <
          1000000000) :=
  claim_C3.1 [] [{ mint := "X", owner := some "USER", uiAmount := some 500 }] "USER" "X"
    (by simp) (by simp)

end SandwichSpec
